import Mathlib

/-! # Polar Watch: detection records, derived metrics and selection

A shallow embedding of the detection-record logic of the Polar Watch front end
(`src/App.js`, `send/src/App.js`, `components/DarkShipMap.js`,
`components/ShipCard.js`).

Conventions of the embedding:

* a record field read from a JSON object is a `Field`: `undefined` (member
  missing), `null`, or a value;
* JavaScript Numbers are exact rationals (`JsNum.fin`), together with `NaN` and
  the two infinities; no rounding is modelled and signed zero is not
  distinguished;
* React state is an explicit record `AppState`, and every handler is a function
  on it.
-/

namespace PolarWatch

/-! ## JavaScript values -/

/-- A member of a JSON-derived object: missing, `null`, or carrying a value. -/
inductive Field (α : Type) where
  | undefined : Field α
  | null : Field α
  | val (a : α) : Field α
deriving DecidableEq

/-- JavaScript Number: `NaN`, `+Infinity`, `-Infinity` or a finite value. -/
inductive JsNum where
  | nan : JsNum
  | posInf : JsNum
  | negInf : JsNum
  | fin (q : ℚ) : JsNum
deriving DecidableEq

/-- The abstract operation `ToBoolean` on the primitive value types in use. -/
class JsTruthy (α : Type) where
  toBoolean : α → Bool

instance : JsTruthy ℚ := ⟨fun q => decide (q ≠ 0)⟩
instance : JsTruthy ℤ := ⟨fun n => decide (n ≠ 0)⟩
instance : JsTruthy String := ⟨fun s => decide (s ≠ "")⟩

/-- `ToBoolean` of a member: `undefined` and `null` are falsy, a value is
falsy exactly when it is `0` (numbers) or the empty string (strings). -/
def Field.toBoolean {α : Type} [JsTruthy α] : Field α → Bool
  | .undefined => false
  | .null => false
  | .val a => JsTruthy.toBoolean a

/-- A member is present when it is neither `undefined` nor `null`. -/
def Field.isPresent {α : Type} : Field α → Bool
  | .undefined => false
  | .null => false
  | .val _ => true

/-- `ToNumber` of a numeric member: `undefined` is `NaN`, `null` is `0`. -/
def Field.toNumber : Field ℚ → JsNum
  | .undefined => .nan
  | .null => .fin 0
  | .val q => .fin q

/-- The relational operator `x > k` against a finite literal `k`. -/
def JsNum.gtLit (x : JsNum) (k : ℚ) : Bool :=
  match x with
  | .nan => false
  | .posInf => true
  | .negInf => false
  | .fin q => decide (k < q)

/-- The expression `member > k` for a numeric member and a literal `k`. -/
def Field.gt (x : Field ℚ) (k : ℚ) : Bool := x.toNumber.gtLit k

/-- The expression `member === lit` for a string literal `lit`. -/
def Field.strictEq (x : Field String) (lit : String) : Bool :=
  match x with
  | .val s => decide (s = lit)
  | _ => false

/-! ## Detection records -/

/-- One element of `dark_ships`, with the members the front end reads. -/
structure Ship where
  lat : Field ℚ
  lon : Field ℚ
  confidence : Field ℚ
  target_vessel : Field String
  target_mmsi : Field ℤ
  reason : Field String
  status : Field String
  gap_start_time : Field String
  gap_end_time : Field String
  last_lat : Field ℚ
  last_lon : Field ℚ
  next_lat : Field ℚ
  next_lon : Field ℚ
  distance_km : Field ℚ
deriving DecidableEq

/-! ## Number operations -/

/-- Unary minus. -/
def JsNum.neg : JsNum → JsNum
  | .nan => .nan
  | .posInf => .negInf
  | .negInf => .posInf
  | .fin q => .fin (-q)

/-- The operator `+` on Numbers. -/
def JsNum.add : JsNum → JsNum → JsNum
  | .nan, _ => .nan
  | _, .nan => .nan
  | .posInf, .negInf => .nan
  | .negInf, .posInf => .nan
  | .posInf, _ => .posInf
  | _, .posInf => .posInf
  | .negInf, _ => .negInf
  | _, .negInf => .negInf
  | .fin a, .fin b => .fin (a + b)

/-- The operator `*` on Numbers. -/
def JsNum.mul : JsNum → JsNum → JsNum
  | .nan, _ => .nan
  | _, .nan => .nan
  | .fin a, .fin b => .fin (a * b)
  | .fin a, .posInf => if a = 0 then .nan else if 0 < a then .posInf else .negInf
  | .fin a, .negInf => if a = 0 then .nan else if 0 < a then .negInf else .posInf
  | .posInf, .fin b => if b = 0 then .nan else if 0 < b then .posInf else .negInf
  | .negInf, .fin b => if b = 0 then .nan else if 0 < b then .negInf else .posInf
  | .posInf, .posInf => .posInf
  | .negInf, .negInf => .posInf
  | .posInf, .negInf => .negInf
  | .negInf, .posInf => .negInf

/-- The operator `-` on Numbers. -/
def JsNum.sub (x y : JsNum) : JsNum := x.add y.neg

/-- The operator `/` on Numbers; a zero divisor counts as `+0`. -/
def JsNum.div : JsNum → JsNum → JsNum
  | .nan, _ => .nan
  | _, .nan => .nan
  | .fin a, .fin b =>
    if b = 0 then (if a = 0 then .nan else if 0 < a then .posInf else .negInf)
    else .fin (a / b)
  | .fin _, _ => .fin 0
  | .posInf, .fin b => if 0 ≤ b then .posInf else .negInf
  | .negInf, .fin b => if 0 ≤ b then .negInf else .posInf
  | _, _ => .nan

/-- The expression `x || 0` on a Number: `NaN` and `0` are falsy. -/
def JsNum.orZero : JsNum → JsNum
  | .nan => .fin 0
  | .fin q => if q = 0 then .fin 0 else .fin q
  | x => x

/-- The integer `Math.round` yields on a finite value: ties go towards
`+Infinity`. -/
def roundHalfUp (q : ℚ) : ℤ := ⌊q + 1 / 2⌋

/-- The function `Math.round`. -/
def mathRound : JsNum → JsNum
  | .fin q => .fin (roundHalfUp q)
  | x => x

/-! ## Dates -/

/-- Value of a decimal digit character. -/
def digitVal (c : Char) : Option ℕ :=
  if c.isDigit then some (c.toNat - 48) else none

/-- Value of a run of decimal digits. -/
def digitsVal : List Char → Option ℕ
  | [] => some 0
  | c :: cs => do
    let rest ← digitsVal cs
    let d ← digitVal c
    pure (d * 10 ^ cs.length + rest)

/-- ECMAScript `DayFromYear`: day number of 1 January of year `y`. -/
def dayFromYear (y : ℤ) : ℤ :=
  365 * (y - 1970) + (y - 1969) / 4 - (y - 1901) / 100 + (y - 1601) / 400

/-- Gregorian leap-year test (ECMAScript `DaysInYear y = 366`). -/
def isLeapYear (y : ℕ) : Bool :=
  (y % 4 == 0 && y % 100 != 0) || y % 400 == 0

/-- Number of days of month `m` (1 to 12) in year `y`. -/
def daysInMonth (y m : ℕ) : ℕ :=
  if m = 2 then (if isLeapYear y then 29 else 28)
  else if m = 4 ∨ m = 6 ∨ m = 9 ∨ m = 11 then 30
  else 31

/-- Days of year `y` that precede month `m`. -/
def daysBeforeMonth (y m : ℕ) : ℕ :=
  ((List.range (m - 1)).map (fun i => daysInMonth y (i + 1))).sum

/-- ECMAScript `MakeDate (MakeDay y m d) (MakeTime h mi s 0)`: milliseconds
since 1970-01-01T00:00:00Z. -/
def makeDate (y m d h mi s : ℕ) : ℤ :=
  (dayFromYear y + daysBeforeMonth y m + (d - 1 : ℤ)) * 86400000
    + (h * 3600000 + mi * 60000 + s * 1000 : ℤ)

/-- Model of `Date.parse` on the ECMAScript date-time string format in the
shape `YYYY-MM-DDTHH:mm:ssZ` (the shape of every timestamp of the data set):
the time value in milliseconds. The model covers this shape only: for every
other string, and for a field out of range, it answers `NaN` (invalid date). -/
def dateParse (s : String) : JsNum :=
  match s.toList with
  | [y1, y2, y3, y4, p1, m1, m2, p2, d1, d2, t, h1, h2, c1, n1, n2, c2, s1, s2, z] =>
    if p1 = '-' ∧ p2 = '-' ∧ t = 'T' ∧ c1 = ':' ∧ c2 = ':' ∧ z = 'Z' then
      match digitsVal [y1, y2, y3, y4], digitsVal [m1, m2], digitsVal [d1, d2],
          digitsVal [h1, h2], digitsVal [n1, n2], digitsVal [s1, s2] with
      | some y, some m, some d, some h, some mi, some sec =>
        if 1 ≤ m ∧ m ≤ 12 ∧ 1 ≤ d ∧ d ≤ daysInMonth y m ∧ h ≤ 23 ∧ mi ≤ 59 ∧ sec ≤ 59 then
          .fin (makeDate y m d h mi sec)
        else .nan
      | _, _, _, _, _, _ => .nan
    else .nan
  | _ => .nan

/-- Time value of `new Date(member)`: a string is parsed, `null` converts to
`0`, `undefined` gives an invalid date. -/
def newDate : Field String → JsNum
  | .val s => dateParse s
  | .null => .fin 0
  | .undefined => .nan

/-! ## Dashboard metrics (App.js) -/

/-- The filter predicate `s => s.gap_start_time && s.gap_end_time`. -/
def hasGapTimes (s : Ship) : Bool :=
  s.gap_start_time.toBoolean && s.gap_end_time.toBoolean

/-- The reducer body: `(new Date(ship.gap_end_time) - new Date(ship.gap_start_time))
/ (1000 * 60 * 60)`. -/
def gapHours (ship : Ship) : JsNum :=
  ((newDate ship.gap_end_time).sub (newDate ship.gap_start_time)).div (.fin (1000 * 60 * 60))

/-- The Avg Gap Time number (App.js, lines 111-115):
`Math.round(filter(..).reduce((acc, ship) => acc + hours, 0) / filter(..).length || 0)`.
The sum and the quotient are exact here, whereas the code rounds every step to
a binary64 value: for two or more records the two means can differ in the
last places, which shows in the rounded number only when the exact mean lies
within that error of a half-integer. -/
def averageGapHours (darkShips : List Ship) : JsNum :=
  mathRound
    ((((darkShips.filter hasGapTimes).foldl (fun (acc : JsNum) (ship : Ship) => acc.add (gapHours ship)) (JsNum.fin 0)).div
      (.fin ((darkShips.filter hasGapTimes).length : ℕ))).orZero)

/-- The High Risk number (App.js, line 98):
`darkShips.filter(s => s.confidence > 0.8).length`. -/
def highRiskCount (darkShips : List Ship) : ℕ :=
  (darkShips.filter (fun s => s.confidence.gt (8 / 10))).length

/-- One entry of the Recent Threat Activity list (App.js, lines 126-135). -/
structure ThreatItem where
  key : ℕ
  icon : String
  vessel : Field String
  reason : Field String
  confidencePercent : JsNum
deriving DecidableEq

/-- The body of the `map` callback of the Recent Threat Activity list:
icon `ship.status === 'DARK_SHIP_CONFIRMED' ? '🔴' : '🟡'`, then the vessel
name, the reason and `Math.round(ship.confidence * 100)`. The product is exact
here, whereas the code rounds it to a binary64 value, so `confidencePercent`
can differ from the code by one when `confidence * 100` is a half-integer
(0.285 gives 29 here and 28 in the code). -/
def threatItem (ship : Ship) (index : ℕ) : ThreatItem :=
  { key := index
    icon := if ship.status.strictEq "DARK_SHIP_CONFIRMED" then "🔴" else "🟡"
    vessel := ship.target_vessel
    reason := ship.reason
    confidencePercent := mathRound (ship.confidence.toNumber.mul (.fin 100)) }

/-- The Recent Threat Activity list: `darkShips.slice(0, 3).map((ship, index) => ...)`. -/
def recentThreats (darkShips : List Ship) : List ThreatItem :=
  (darkShips.take 3).enum.map (fun p => threatItem p.2 p.1)

/-! ## Gap trajectory overlay -/

/-- The three map elements of the AIS gap visualization: the marker at the
last known position, the marker at the reappearance position, and the dashed
polyline between them. Positions are the record members as passed to the map. -/
structure GapOverlay where
  gapStartMarker : Field ℚ × Field ℚ
  gapEndMarker : Field ℚ × Field ℚ
  polyline : List (Field ℚ × Field ℚ)
  dashArray : String
deriving DecidableEq

namespace DarkShipMap

/-- The guard of the gap visualization (DarkShipMap.js, line 124):
`ship.status === 'DARK_SHIP_CONFIRMED' && ship.last_lat && ship.last_lon &&
ship.next_lat && ship.next_lon`, as a truth value. -/
def gapGuard (ship : Ship) : Bool :=
  ship.status.strictEq "DARK_SHIP_CONFIRMED" && ship.last_lat.toBoolean &&
    ship.last_lon.toBoolean && ship.next_lat.toBoolean && ship.next_lon.toBoolean

/-- The gap visualization of the main map (DarkShipMap.js, lines 124-190):
nothing when the guard is falsy. -/
def gapVisualization (ship : Ship) : Option GapOverlay :=
  if gapGuard ship then
    some
      { gapStartMarker := (ship.last_lat, ship.last_lon)
        gapEndMarker := (ship.next_lat, ship.next_lon)
        polyline := [(ship.last_lat, ship.last_lon), (ship.next_lat, ship.next_lon)]
        dashArray := "10, 10" }
  else none

end DarkShipMap

namespace ShipCard

/-- The guard of the gap visualization (ShipCard.js, line 227):
`ship.last_lat && ship.last_lon && ship.next_lat && ship.next_lon &&
ship.status === 'DARK_SHIP_CONFIRMED'`, as a truth value. -/
def gapGuard (ship : Ship) : Bool :=
  ship.last_lat.toBoolean && ship.last_lon.toBoolean && ship.next_lat.toBoolean &&
    ship.next_lon.toBoolean && ship.status.strictEq "DARK_SHIP_CONFIRMED"

/-- The gap visualization of the card map (ShipCard.js, lines 227-252). -/
def gapVisualization (ship : Ship) : Option GapOverlay :=
  if gapGuard ship then
    some
      { gapStartMarker := (ship.last_lat, ship.last_lon)
        gapEndMarker := (ship.next_lat, ship.next_lon)
        polyline := [(ship.last_lat, ship.last_lon), (ship.next_lat, ship.next_lon)]
        dashArray := "10, 10" }
  else none

end ShipCard

/-! ## Application state and handlers -/

/-- The React state of `App`. The member `error` exists in `send/src/App.js`
only; `src/App.js` has no such state and never reads it. -/
structure AppState where
  darkShips : List Ship
  loading : Bool
  error : Option String
  selectedShip : Option ℕ
  mapView : String
  currentView : String
deriving DecidableEq

/-- The initial values given to `useState`. -/
def AppState.initial : AppState :=
  { darkShips := []
    loading := true
    error := none
    selectedShip := none
    mapView := "AIS"
    currentView := "tracker" }

/-- The state setter `setSelectedShip`. -/
def setSelectedShip (index : ℕ) (s : AppState) : AppState :=
  { s with selectedShip := some index }

/-- The state setter `setCurrentView`. -/
def setCurrentView (view : String) (s : AppState) : AppState :=
  { s with currentView := view }

/-- The `onClick` handler of vessel card `index` (App.js, line 185):
`() => setSelectedShip(index)`. -/
def vesselCardClick (index : ℕ) (s : AppState) : AppState :=
  setSelectedShip index s

/-- The `click` handler of marker `index` (DarkShipMap.js, lines 109-111):
`if (onShipSelect) onShipSelect(index)`. -/
def DarkShipMap.markerClick (onShipSelect : Option (ℕ → AppState → AppState))
    (index : ℕ) (s : AppState) : AppState :=
  match onShipSelect with
  | some f => f index s
  | none => s

/-- A marker click in the map as `App` mounts it (App.js, lines 273-277):
`onShipSelect={setSelectedShip}`. -/
def mapMarkerClick (index : ℕ) (s : AppState) : AppState :=
  DarkShipMap.markerClick (some setSelectedShip) index s

/-! ## Loading the snapshot -/

/-- What `response.json()` yields: a rejection (body is not JSON), the JSON
value `null`, or any other value, of which only the member `dark_ships` is
read (`none` when it is missing or falsy). -/
inductive JsonBody where
  | unparseable : JsonBody
  | nullValue : JsonBody
  | data (dark_ships : Option (List Ship)) : JsonBody
deriving DecidableEq

/-- A resolved `fetch`: the `ok` flag and the body. -/
structure Response where
  ok : Bool
  body : JsonBody
deriving DecidableEq

/-- Outcome of one `fetch` call: rejected (network error) or resolved. -/
inductive FetchOutcome where
  | rejected : FetchOutcome
  | resolved (response : Response) : FetchOutcome
deriving DecidableEq

/-- The outcomes of fetching `/data/arctic_dark_ships.json` (primary) and
`/data/dark_ship_report.json` (secondary, consulted only when fetched). -/
structure Backend where
  primary : FetchOutcome
  secondary : FetchOutcome
deriving DecidableEq

/-- The statements `const data = await response.json(); data.dark_ships || []`:
`none` when they throw. -/
def readDarkShips (response : Response) : Option (List Ship) :=
  match response.body with
  | .unparseable => none
  | .nullValue => none
  | .data (some ships) => some ships
  | .data none => some []

namespace App

/-- The `try` block of `loadDarkShipData` in `src/App.js` (lines 18-30): the
collection handed to `setDarkShips`, or `none` when the block throws. -/
def tryLoad (backend : Backend) : Option (List Ship) :=
  match backend.primary with
  | .rejected => none
  | .resolved first =>
    if !first.ok then
      match backend.secondary with
      | .rejected => none
      | .resolved second => readDarkShips second
    else readDarkShips first

/-- The state after a completed run of `loadDarkShipData` in `src/App.js`
(lines 17-38): `setDarkShips` runs when the `try` block gets there, the
`catch` block only logs, and `finally` sets `loading` to `false`. -/
def loadDarkShipData (backend : Backend) (s : AppState) : AppState :=
  match tryLoad backend with
  | some ships => { s with darkShips := ships, loading := false }
  | none => { s with loading := false }

end App

/-! ## The built-in data set (send/src/App.js) -/

/-- A payload object `{ dark_ships: [...] }`. -/
structure Payload where
  dark_ships : List Ship
deriving DecidableEq

namespace SendApp

/-- First record of the built-in data set (lines 53-68). -/
def arcticShadow : Ship :=
  { lat := .val 69.2348, lon := .val (-105.4562), confidence := .val 0.943
    target_vessel := .val "ARCTIC SHADOW", target_mmsi := .val 316054321
    reason := .val "Gap: 72.3 hours in Northwest Passage shipping lane"
    status := .val "DARK_SHIP_CONFIRMED"
    gap_start_time := .val "2025-09-18T14:35:02Z"
    gap_end_time := .val "2025-09-21T14:53:47Z"
    last_lat := .val 69.8234, last_lon := .val (-107.2341)
    next_lat := .val 69.2348, next_lon := .val (-105.4562)
    distance_km := .val 185.4 }

/-- Second record of the built-in data set (lines 69-84). -/
def northernGhost : Ship :=
  { lat := .val 70.1234, lon := .val (-108.7865), confidence := .val 0.887
    target_vessel := .val "NORTHERN GHOST", target_mmsi := .val 316098765
    reason := .val "Distance jump: 450.7 km, Transponder disabled in Beaufort Sea"
    status := .val "DARK_SHIP_CONFIRMED"
    gap_start_time := .val "2025-09-19T08:22:15Z"
    gap_end_time := .val "2025-09-20T19:45:33Z"
    last_lat := .val 71.4567, last_lon := .val (-112.3456)
    next_lat := .val 70.1234, next_lon := .val (-108.7865)
    distance_km := .val 450.7 }

/-- Third record of the built-in data set (lines 85-95): the orphan detection,
whose gap coordinates and distance are missing. -/
def unknownVessel : Ship :=
  { lat := .val 68.7654, lon := .val (-140.2341), confidence := .val 0.812
    target_vessel := .val "UNKNOWN VESSEL", target_mmsi := .val 0
    reason := .val "Unidentified vessel detected in Beaufort Sea, no AIS response"
    status := .val "ORPHAN_DETECTION"
    gap_start_time := .null
    gap_end_time := .null
    last_lat := .undefined, last_lon := .undefined
    next_lat := .undefined, next_lon := .undefined
    distance_km := .undefined }

/-- Fourth record of the built-in data set (lines 96-111). -/
def iceRunner : Ship :=
  { lat := .val 69.4567, lon := .val (-133.8901), confidence := .val 0.756
    target_vessel := .val "ICE RUNNER", target_mmsi := .val 316012345
    reason := .val "Gap: 48.7 hours, last seen near Tuktoyaktuk shipping lanes"
    status := .val "DARK_SHIP_CONFIRMED"
    gap_start_time := .val "2025-09-17T23:12:44Z"
    gap_end_time := .val "2025-09-20T00:05:18Z"
    last_lat := .val 69.1234, last_lon := .val (-135.6789)
    next_lat := .val 69.4567, next_lon := .val (-133.8901)
    distance_km := .val 215.3 }

/-- Fifth record of the built-in data set (lines 112-127). -/
def phantomFisher : Ship :=
  { lat := .val 74.0123, lon := .val (-110.5678), confidence := .val 0.923
    target_vessel := .val "PHANTOM FISHER", target_mmsi := .val 316087654
    reason := .val "Gap: 96.2 hours, impossible speed through Northwest Passage"
    status := .val "DARK_SHIP_CONFIRMED"
    gap_start_time := .val "2025-09-16T12:45:22Z"
    gap_end_time := .val "2025-09-20T12:57:11Z"
    last_lat := .val 72.8765, last_lon := .val (-115.4321)
    next_lat := .val 74.0123, next_lon := .val (-110.5678)
    distance_km := .val 523.8 }

/-- Sixth record of the built-in data set (lines 128-143). -/
def arcticWanderer : Ship :=
  { lat := .val 68.3456, lon := .val (-125.6789), confidence := .val 0.689
    target_vessel := .val "ARCTIC WANDERER", target_mmsi := .val 316065432
    reason := .val "Transponder disabled for 38.4 hours in Amundsen Gulf"
    status := .val "DARK_SHIP_CONFIRMED"
    gap_start_time := .val "2025-09-19T16:33:55Z"
    gap_end_time := .val "2025-09-21T06:57:12Z"
    last_lat := .val 68.9876, last_lon := .val (-128.3456)
    next_lat := .val 68.3456, next_lon := .val (-125.6789)
    distance_km := .val 287.6 }

/-- The function `createArcticDummyData` (send/src/App.js, lines 51-145). -/
def createArcticDummyData : Payload :=
  { dark_ships :=
      [arcticShadow, northernGhost, unknownVessel, iceRunner, phantomFisher, arcticWanderer] }

/-- The `try` block of `loadDarkShipData` in `send/src/App.js` (lines 20-40):
the collection handed to `setDarkShips`, or `none` when the block throws. A
response that is still not `ok` after the fallback fetch selects the built-in
data set and returns. -/
def tryLoad (backend : Backend) : Option (List Ship) :=
  match backend.primary with
  | .rejected => none
  | .resolved first =>
    match (if !first.ok then backend.secondary else .resolved first) with
    | .rejected => none
    | .resolved response =>
      if !response.ok then some createArcticDummyData.dark_ships
      else readDarkShips response

/-- The state after a completed run of `loadDarkShipData` in `send/src/App.js`
(lines 19-49): the `catch` block installs the built-in data set and `finally`
sets `loading` to `false`; `setError` is never called. -/
def loadDarkShipData (backend : Backend) (s : AppState) : AppState :=
  match tryLoad backend with
  | some ships => { s with darkShips := ships, loading := false }
  | none => { s with darkShips := createArcticDummyData.dark_ships, loading := false }

end SendApp

/-! ## ShipCard: confidence classes -/

namespace ShipCard

/-- Class suffix of the `confidence-badge` span (ShipCard.js, line 165):
`ship.confidence > 0.8 ? 'high' : ship.confidence > 0.6 ? 'medium' : 'low'`. -/
def confidenceBadge (ship : Ship) : String :=
  if ship.confidence.gt (8 / 10) then "high"
  else if ship.confidence.gt (6 / 10) then "medium"
  else "low"

/-- Class of the Detection Confidence span (ShipCard.js, line 273), the same
expression as the badge. -/
def detectionConfidenceClass (ship : Ship) : String :=
  if ship.confidence.gt (8 / 10) then "high"
  else if ship.confidence.gt (6 / 10) then "medium"
  else "low"

end ShipCard

/-! ## Sample records used by the concrete statements -/

/-- A confirmed dark ship whose `next_lat` member is missing. -/
def confirmedMissingNextLat : Ship :=
  { SendApp.arcticShadow with next_lat := .undefined }

/-- A confirmed dark ship, all four gap coordinates given, that reappears on
the prime meridian (`next_lon: 0`) in the Greenland Sea. -/
def reappearsOnPrimeMeridian : Ship :=
  { SendApp.arcticShadow with
    lat := .val 74, lon := .val 0
    last_lat := .val 73.5, last_lon := .val (-2.25)
    next_lat := .val 74, next_lon := .val 0 }

/-- A record with both gap timestamps but none of the gap coordinates and no
distance: the second built-in record with those five members removed. -/
def gapTimesOnly : Ship :=
  { SendApp.northernGhost with
    last_lat := .undefined, last_lon := .undefined
    next_lat := .undefined, next_lon := .undefined
    distance_km := .undefined }

/-- A state in which the third record of the built-in data set is selected. -/
def thirdSelected : AppState :=
  { AppState.initial with
    darkShips := SendApp.createArcticDummyData.dark_ships
    loading := false
    selectedShip := some 2 }

/-- A backend whose primary source answers with a one-record payload. -/
def oneRecordBackend : Backend :=
  { primary := .resolved { ok := true, body := .data (some [SendApp.iceRunner]) }
    secondary := .rejected }

/-! ## The average gap as the specification words it -/

/-- Whether every member of the gap tuple (gap_start_time, gap_end_time,
last_lat, last_lon, next_lat, next_lon, distance_km) is present. -/
def gapTupleComplete (s : Ship) : Bool :=
  s.gap_start_time.isPresent && s.gap_end_time.isPresent && s.last_lat.isPresent &&
    s.last_lon.isPresent && s.next_lat.isPresent && s.next_lon.isPresent &&
    s.distance_km.isPresent

/-- The average gap in the words of the specification: over the records whose
gap tuple is fully present, the mean of the gap lengths in hours, rounded to
the nearest integer; `0` when no record qualifies. -/
def specAverageGapHours (darkShips : List Ship) : JsNum :=
  if darkShips.filter gapTupleComplete = [] then .fin 0
  else
    mathRound
      (((darkShips.filter gapTupleComplete).foldl
          (fun (acc : JsNum) (ship : Ship) => acc.add (gapHours ship)) (JsNum.fin 0)).div
        (.fin ((darkShips.filter gapTupleComplete).length : ℕ)))

/-- The finite value of a Number, `0` for `NaN` and the infinities. -/
def JsNum.toRat : JsNum → ℚ
  | .fin q => q
  | _ => 0

/-! ## Events of the running application -/

/-- The URL of the primary source. -/
def primaryUrl : String := "/data/arctic_dark_ships.json"

/-- The URL of the secondary source. -/
def secondaryUrl : String := "/data/dark_ship_report.json"

/-- The `fetch` calls one run of `loadDarkShipData` makes, in order (the same
in both variants of `App`): the primary URL always, the secondary URL exactly
when the first response arrived with `ok` false. -/
def fetched (backend : Backend) : List String :=
  match backend.primary with
  | .rejected => [primaryUrl]
  | .resolved first => if !first.ok then [primaryUrl, secondaryUrl] else [primaryUrl]

/-- Whether the main layout is on screen: `App` returns the loading screen
while `loading` is set (App.js, line 41) and, in `send/src/App.js` only, the
error screen while `error` is set (line 156). -/
def rendersLayout (s : AppState) : Bool :=
  !s.loading && s.error.isNone

/-- The events that change the state of `App`: the completion of the run of
`loadDarkShipData` started by the mount effect, and the four click handlers. -/
inductive Event where
  | loadCompleted (backend : Backend) : Event
  | vesselCardClicked (index : ℕ) : Event
  | markerClicked (index : ℕ) : Event
  | trackerNavClicked : Event
  | dashboardNavClicked : Event
deriving DecidableEq

/-- One event applied to a state, `none` when the event cannot occur there.
The only call of `loadDarkShipData` is the mount effect (`useEffect(..., [])`),
whose run is pending exactly while `loading` is set. The click handlers exist
only while the main layout is on screen; vessel cards and markers exist only
in the tracker view, one per index of `darkShips` (`darkShips.map`). -/
def stepWith (load : Backend → AppState → AppState) (e : Event) (s : AppState) :
    Option AppState :=
  match e with
  | .loadCompleted backend => if s.loading then some (load backend s) else none
  | .vesselCardClicked index =>
    if rendersLayout s && s.currentView != "dashboard" && decide (index < s.darkShips.length)
    then some (vesselCardClick index s) else none
  | .markerClicked index =>
    if rendersLayout s && s.currentView != "dashboard" && decide (index < s.darkShips.length)
    then some (mapMarkerClick index s) else none
  | .trackerNavClicked =>
    if rendersLayout s then some (setCurrentView "tracker" s) else none
  | .dashboardNavClicked =>
    if rendersLayout s then some (setCurrentView "dashboard" s) else none

/-- A sequence of events applied in order, `none` when one of them cannot
occur. -/
def runWith (load : Backend → AppState → AppState) : List Event → AppState → Option AppState
  | [], s => some s
  | e :: es, s =>
    match stepWith load e s with
    | some t => runWith load es t
    | none => none

/-- Runs of `src/App.js`. -/
def App.run (events : List Event) (s : AppState) : Option AppState :=
  runWith App.loadDarkShipData events s

/-- Runs of `send/src/App.js`. -/
def SendApp.run (events : List Event) (s : AppState) : Option AppState :=
  runWith SendApp.loadDarkShipData events s

/-! ## DarkShipMap: camera and marker icon -/

namespace DarkShipMap

/-- The arguments of one call `map.setView([lat, lon], zoom, { animate })`. -/
structure SetView where
  center : Field ℚ × Field ℚ
  zoom : ℕ
  animate : Bool
deriving DecidableEq

/-- The effect of `MapCenterController` (DarkShipMap.js, lines 58-63): the
`setView` call it makes, if any:
`if (selectedShip !== null && darkShips[selectedShip]) map.setView([ship.lat, ship.lon], 8, ...)`. -/
def mapCenterEffect (selectedShip : Option ℕ) (darkShips : List Ship) : Option SetView :=
  match selectedShip with
  | none => none
  | some index =>
    match darkShips[index]? with
    | some ship => some { center := (ship.lat, ship.lon), zoom := 8, animate := true }
    | none => none

/-- The parts of the `L.divIcon` that `createDarkShipIcon` builds. -/
structure DarkShipIcon where
  backgroundColor : String
  borderWidth : String
  size : ℕ
  fontSize : ℤ
  pulseAnimation : String
  glyph : String
  selectedDot : Bool
  iconSize : ℕ × ℕ
  iconAnchor : ℚ × ℚ
  popupAnchor : ℚ × ℚ
deriving DecidableEq

/-- The inner function `getStatusColor` (DarkShipMap.js, lines 15-21), a
`switch` on `status`. -/
def getStatusColor (confidence : Field ℚ) (status : Field String) : String :=
  if status.strictEq "DARK_SHIP_CONFIRMED" then
    (if confidence.gt (8 / 10) then "#dc2626" else "#ea580c")
  else if status.strictEq "ORPHAN_DETECTION" then "#f59e0b"
  else "#6b7280"

/-- The size of the marker (DarkShipMap.js, line 24):
`isSelected ? 24 : (confidence > 0.8 ? 20 : confidence > 0.6 ? 18 : 16)`. -/
def markerSize (confidence : Field ℚ) (isSelected : Bool) : ℕ :=
  if isSelected then 24
  else if confidence.gt (8 / 10) then 20
  else if confidence.gt (6 / 10) then 18
  else 16

/-- The function `createDarkShipIcon` (DarkShipMap.js, lines 14-52). -/
def createDarkShipIcon (confidence : Field ℚ) (status : Field String) (isSelected : Bool) :
    DarkShipIcon :=
  { backgroundColor := getStatusColor confidence status
    borderWidth := if isSelected then "3px" else "2px"
    size := markerSize confidence isSelected
    fontSize := ⌊((markerSize confidence isSelected : ℕ) : ℚ) * (1 / 2)⌋
    pulseAnimation := if isSelected then "animation: pulse 2s infinite;" else ""
    glyph := if status.strictEq "ORPHAN_DETECTION" then "❓" else "🚢"
    selectedDot := isSelected
    iconSize := (markerSize confidence isSelected, markerSize confidence isSelected)
    iconAnchor := (((markerSize confidence isSelected : ℕ) : ℚ) / 2,
      ((markerSize confidence isSelected : ℕ) : ℚ) / 2)
    popupAnchor := (0, -(((markerSize confidence isSelected : ℕ) : ℚ) / 2)) }

end DarkShipMap

/-! ## Rendered text -/

/-- A value placed in a JSX expression container, as far as the rendered text
goes; an element is represented by its text content. -/
inductive JsxValue where
  | undefined : JsxValue
  | null : JsxValue
  | bool (b : Bool) : JsxValue
  | num (n : ℤ) : JsxValue
  | str (s : String) : JsxValue
  | element (text : String) : JsxValue
deriving DecidableEq

/-- The operation `ToBoolean` on these values. -/
def JsxValue.toBoolean : JsxValue → Bool
  | .undefined => false
  | .null => false
  | .bool b => b
  | .num n => decide (n ≠ 0)
  | .str s => decide (s ≠ "")
  | .element _ => true

/-- The text React renders for a child: numbers and strings as text, nothing
for `undefined`, `null` and booleans. -/
def JsxValue.text : JsxValue → String
  | .undefined => ""
  | .null => ""
  | .bool _ => ""
  | .num n => toString n
  | .str s => s
  | .element t => t

/-- The operator `a && b`: `a` when it is falsy, else `b`. -/
def JsxValue.and (a b : JsxValue) : JsxValue := if a.toBoolean then b else a

/-- The operator `a || b`: `a` when it is truthy, else `b`. -/
def JsxValue.or (a b : JsxValue) : JsxValue := if a.toBoolean then a else b

/-- A numeric member as a JSX value. -/
def Field.jsxNum : Field ℤ → JsxValue
  | .undefined => .undefined
  | .null => .null
  | .val n => .num n

/-- A string member as a JSX value. -/
def Field.jsxStr : Field String → JsxValue
  | .undefined => .undefined
  | .null => .null
  | .val s => .str s

/-- The expression `member !== 0`. -/
def Field.strictNeZero : Field ℤ → Bool
  | .val n => decide (n ≠ 0)
  | _ => true

/-- Text of the `mmsi` span of a vessel card (App.js, line 189, and
send/src/App.js, line 305): `MMSI: {ship.target_mmsi || 'Unknown'}`. -/
def vesselCardMmsi (ship : Ship) : String :=
  "MMSI: " ++ (ship.target_mmsi.jsxNum.or (.str "Unknown")).text

/-- Text of the heading of a vessel card (App.js, line 188, and
send/src/App.js, line 304): `<h3>{ship.target_vessel}</h3>`. -/
def vesselCardName (ship : Ship) : String :=
  ship.target_vessel.jsxStr.text

/-- Text of the `threat-vessel` element of a Recent Threat Activity entry
(App.js, line 131): `{ship.target_vessel}`. -/
def ThreatItem.vesselText (item : ThreatItem) : String :=
  item.vessel.jsxStr.text

namespace ShipCard

/-- Text of the MMSI detail span (ShipCard.js, line 268):
`{ship.target_mmsi || 'Unknown'}`. -/
def mmsiDetail (ship : Ship) : String :=
  (ship.target_mmsi.jsxNum.or (.str "Unknown")).text

/-- Text of the vessel name in the card title (ShipCard.js, line 155):
`{ship.target_vessel || 'UNKNOWN VESSEL'}`. -/
def titleName (ship : Ship) : String :=
  (ship.target_vessel.jsxStr.or (.str "UNKNOWN VESSEL")).text

end ShipCard

namespace Dashboard

/-- Text the MMSI expression of `DarkShipSummary` contributes (Dashboard.js,
lines 105-107): `{ship.target_mmsi && ship.target_mmsi !== 0 && (<p>MMSI: ...</p>)}`. -/
def darkShipSummaryMmsi (ship : Ship) : String :=
  ((ship.target_mmsi.jsxNum.and (.bool ship.target_mmsi.strictNeZero)).and
    (.element ("MMSI: " ++ ship.target_mmsi.jsxNum.text))).text

end Dashboard

namespace ImageViewer

/-- Text of the MMSI paragraph of `ShipDetailCard` (ImageViewer.js, lines
70-74): `ship.target_mmsi && ship.target_mmsi !== 0 ? <p>MMSI: ...</p> :
<p>MMSI: Unknown</p>`. -/
def shipDetailCardMmsi (ship : Ship) : String :=
  if (ship.target_mmsi.jsxNum.and (.bool ship.target_mmsi.strictNeZero)).toBoolean then
    "MMSI: " ++ ship.target_mmsi.jsxNum.text
  else "MMSI: Unknown"

end ImageViewer

/-! ## Record validity as the specification words it -/

/-- A required numeric member that is present and lies in `[lo, hi]`. -/
def presentInRange (x : Field ℚ) (lo hi : ℚ) : Bool :=
  match x with
  | .val q => decide (lo ≤ q) && decide (q ≤ hi)
  | _ => false

/-- Whether every member of the gap tuple is absent. -/
def gapTupleAbsent (s : Ship) : Bool :=
  !s.gap_start_time.isPresent && !s.gap_end_time.isPresent && !s.last_lat.isPresent &&
    !s.last_lon.isPresent && !s.next_lat.isPresent && !s.next_lon.isPresent &&
    !s.distance_km.isPresent

/-- The acceptance test of the Record Model in the words of the specification:
`lat`, `lon` and `confidence` present and in range, and the gap tuple all
present or all absent. The code has no function of this kind. -/
def specValidRecord (s : Ship) : Bool :=
  presentInRange s.lat (-90) 90 && presentInRange s.lon (-180) 180 &&
    presentInRange s.confidence 0 1 && (gapTupleComplete s || gapTupleAbsent s)

/-! ## Further sample inputs -/

/-- A record whose latitude is out of range. -/
def latitudeOutOfRange : Ship :=
  { SendApp.arcticShadow with lat := .val 95 }

/-- A record without a `confidence` member. -/
def confidenceMissing : Ship :=
  { SendApp.northernGhost with confidence := .undefined }

/-- A primary source answering with three records the Record Model of the
specification would reject. -/
def invalidRecordsBackend : Backend :=
  { primary := .resolved
      { ok := true
        body := .data (some [latitudeOutOfRange, confidenceMissing, confirmedMissingNextLat]) }
    secondary := .rejected }

/-- A record without a `target_vessel` member. -/
def vesselNameMissing : Ship :=
  { SendApp.arcticShadow with target_vessel := .undefined }

/-- A record without a `target_mmsi` member. -/
def mmsiMissing : Ship :=
  { SendApp.arcticShadow with target_mmsi := .undefined }

/-- A backend whose primary fetch is rejected (network error) while the
secondary source would answer with a one-record payload. -/
def primaryDownBackend : Backend :=
  { primary := .rejected
    secondary := .resolved { ok := true, body := .data (some [SendApp.iceRunner]) } }

/-- A backend whose primary source answers successfully with a body that is
not JSON while the secondary source would answer with a one-record payload. -/
def primaryGarbledBackend : Backend :=
  { primary := .resolved { ok := true, body := .unparseable }
    secondary := .resolved { ok := true, body := .data (some [SendApp.iceRunner]) } }

/-- The state of `send/src/App.js` after the load fell back to the built-in
data set, the third marker was clicked and the dashboard was opened. -/
def thirdSelectedOnDashboard : AppState :=
  { darkShips := SendApp.createArcticDummyData.dark_ships
    loading := false
    error := none
    selectedShip := some 2
    mapView := "AIS"
    currentView := "dashboard" }

/-! ## Gap duration text and total count (App.js) -/

/-- The Total Threats number (App.js, line 92): `darkShips.length`. -/
def totalCount (darkShips : List Ship) : ℕ := darkShips.length

/-- The Gap Duration text of a vessel card (App.js, lines 196-206, and
send/src/App.js, lines 312-322). With both timestamps truthy, `diffHours` is
`Math.round((end - start) / (1000 * 60 * 60))`, `days` is
`Math.floor(diffHours / 24)`, `hours` is `diffHours % 24` (the remainder takes
the sign of `diffHours`), and the text is `days > 0` ? days "d " hours "h" :
hours "h"; otherwise the text is "N/A". When the difference is `NaN` (a
timestamp that does not parse), `days` and `hours` are `NaN`, the test
`days > 0` fails and the text is "NaNh"; for an infinite difference `days` is
infinite and `hours` is `NaN`. -/
def gapDurationText (ship : Ship) : String :=
  if hasGapTimes ship then
    match gapHours ship with
    | .fin q =>
      let diffHours : ℤ := roundHalfUp q
      let days : ℤ := diffHours / 24
      let hours : ℤ := diffHours.tmod 24
      if 0 < days then toString days ++ "d " ++ toString hours ++ "h"
      else toString hours ++ "h"
    | .nan => "NaNh"
    | .posInf => "Infinityd NaNh"
    | .negInf => "NaNh"
  else "N/A"

/-! ## The error screen (send/src/App.js) -/

/-- Whether `send/src/App.js` shows its error screen with the Retry button
(lines 147-164): the loading screen comes first, then `if (error)`. -/
def SendApp.rendersErrorScreen (s : AppState) : Bool :=
  !s.loading && s.error.isSome

/-! ## Further record constraints as the specification words them -/

/-- The timestamps, when both are given, parse and satisfy
`gap_end_time ≥ gap_start_time`. -/
def gapTimesOrdered (s : Ship) : Bool :=
  match s.gap_start_time, s.gap_end_time with
  | .val a, .val b =>
    match dateParse a, dateParse b with
    | .fin x, .fin y => decide (x ≤ y)
    | _, _ => false
  | _, _ => true

/-- The distance, when given, is not negative. -/
def distanceNonneg (s : Ship) : Bool :=
  match s.distance_km with
  | .val d => decide (0 ≤ d)
  | _ => true

/-! ## Sample backends for the loader statements -/

/-- Both sources answer 404 with a body that is not JSON. -/
def bothNotFoundBackend : Backend :=
  { primary := .resolved { ok := false, body := .unparseable }
    secondary := .resolved { ok := false, body := .unparseable } }

/-- The primary source answers 404; the secondary source answers with a
non-success status and a JSON body that carries one record. -/
def failedSecondaryWithRecordsBackend : Backend :=
  { primary := .resolved { ok := false, body := .unparseable }
    secondary := .resolved { ok := false, body := .data (some [SendApp.iceRunner]) } }

/-! ## Auxiliary facts -/

theorem Field.isPresent_of_toBoolean {α : Type} [JsTruthy α] (x : Field α)
    (h : x.toBoolean = true) : x.isPresent = true := by
  cases x <;> simp_all [Field.toBoolean, Field.isPresent]

theorem Field.strictEq_iff (x : Field String) (lit : String) :
    x.strictEq lit = true ↔ x = .val lit := by
  cases x <;> simp [Field.strictEq]

theorem DarkShipMap.gapGuard_eq_true_iff (ship : Ship) :
    DarkShipMap.gapGuard ship = true ↔
      ship.status = .val "DARK_SHIP_CONFIRMED" ∧ ship.last_lat.toBoolean = true ∧
        ship.last_lon.toBoolean = true ∧ ship.next_lat.toBoolean = true ∧
        ship.next_lon.toBoolean = true := by
  simp [DarkShipMap.gapGuard, Field.strictEq_iff, and_assoc]

theorem ShipCard.gapGuard_true_iff_members (ship : Ship) :
    ShipCard.gapGuard ship = true ↔
      ship.status = .val "DARK_SHIP_CONFIRMED" ∧ ship.last_lat.toBoolean = true ∧
        ship.last_lon.toBoolean = true ∧ ship.next_lat.toBoolean = true ∧
        ship.next_lon.toBoolean = true := by
  simp only [ShipCard.gapGuard, Bool.and_eq_true, Field.strictEq_iff]
  tauto

theorem roundHalfUp_zero : roundHalfUp 0 = 0 := by
  rw [roundHalfUp, Int.floor_eq_iff]; norm_num

theorem roundHalfUp_nonneg (q : ℚ) (hq : 0 ≤ q) : 0 ≤ roundHalfUp q := by
  rw [roundHalfUp]
  exact Int.floor_nonneg.mpr (by linarith)

/-- The value of `Math.round` is a nearest integer. -/
theorem roundHalfUp_nearest (q : ℚ) : |(roundHalfUp q : ℚ) - q| ≤ 1 / 2 := by
  have h1 := Int.floor_le (q + 1 / 2)
  have h2 := Int.lt_floor_add_one (q + 1 / 2)
  rw [roundHalfUp, abs_le]
  constructor <;> linarith

/-! ## Confidence tiers -/

/-- C1: for a record with confidence `c`, the confidence badge class is "high"
exactly when `c > 0.8`, "medium" exactly when `0.6 < c ≤ 0.8` and "low" exactly
when `c ≤ 0.6`; the class is one of these three, and the Detection Confidence
span carries the same class. This holds for every `c`, in particular on `[0,1]`. -/
theorem confidenceBadge_tiers (ship : Ship) (c : ℚ) (hc : ship.confidence = .val c) :
    (ShipCard.confidenceBadge ship = "high" ↔ 8 / 10 < c) ∧
    (ShipCard.confidenceBadge ship = "medium" ↔ 6 / 10 < c ∧ c ≤ 8 / 10) ∧
    (ShipCard.confidenceBadge ship = "low" ↔ c ≤ 6 / 10) ∧
    (ShipCard.confidenceBadge ship = "high" ∨ ShipCard.confidenceBadge ship = "medium" ∨
      ShipCard.confidenceBadge ship = "low") ∧
    ShipCard.detectionConfidenceClass ship = ShipCard.confidenceBadge ship := by
  simp only [ShipCard.confidenceBadge, ShipCard.detectionConfidenceClass, hc, Field.gt,
    Field.toNumber, JsNum.gtLit]
  by_cases h8 : (8 / 10 : ℚ) < c
  · have h6 : (6 / 10 : ℚ) < c := by linarith
    have n6 : ¬ c ≤ 6 / 10 := by linarith
    have n8 : ¬ c ≤ 8 / 10 := by linarith
    simp [h8, h6, n6, n8]
  · by_cases h6 : (6 / 10 : ℚ) < c
    · have n6 : ¬ c ≤ 6 / 10 := by linarith
      have l8 : c ≤ 8 / 10 := by linarith
      simp [h8, h6, n6, l8]
    · have l6 : c ≤ 6 / 10 := by linarith
      simp [h8, h6, l6]

/-- Witness of `confidenceBadge_tiers` at the first built-in record
(confidence 0.943). -/
theorem confidenceBadge_tiers_witness :
    (ShipCard.confidenceBadge SendApp.arcticShadow = "high" ↔ (8 / 10 : ℚ) < 0.943) ∧
    (ShipCard.confidenceBadge SendApp.arcticShadow = "medium" ↔
      (6 / 10 : ℚ) < 0.943 ∧ (0.943 : ℚ) ≤ 8 / 10) ∧
    (ShipCard.confidenceBadge SendApp.arcticShadow = "low" ↔ (0.943 : ℚ) ≤ 6 / 10) ∧
    (ShipCard.confidenceBadge SendApp.arcticShadow = "high" ∨
      ShipCard.confidenceBadge SendApp.arcticShadow = "medium" ∨
      ShipCard.confidenceBadge SendApp.arcticShadow = "low") ∧
    ShipCard.detectionConfidenceClass SendApp.arcticShadow =
      ShipCard.confidenceBadge SendApp.arcticShadow :=
  confidenceBadge_tiers SendApp.arcticShadow 0.943 rfl

/-! ## Gap trajectory overlay -/

/-- C2 (evaluation at the failing record): a confirmed dark ship with all four
gap coordinates present and in range, one of them being `0`, gets no gap
overlay on either map. -/
theorem gapVisualization_dropped_at_zero_coordinate :
    reappearsOnPrimeMeridian.status = .val "DARK_SHIP_CONFIRMED" ∧
    reappearsOnPrimeMeridian.last_lat = .val 73.5 ∧
    reappearsOnPrimeMeridian.last_lon = .val (-2.25) ∧
    reappearsOnPrimeMeridian.next_lat = .val 74 ∧
    reappearsOnPrimeMeridian.next_lon = .val 0 ∧
    DarkShipMap.gapVisualization reappearsOnPrimeMeridian = none ∧
    ShipCard.gapVisualization reappearsOnPrimeMeridian = none := by
  refine ⟨rfl, rfl, rfl, rfl, rfl, ?_, ?_⟩
  · simp [DarkShipMap.gapVisualization, DarkShipMap.gapGuard, reappearsOnPrimeMeridian,
      Field.toBoolean, JsTruthy.toBoolean]
  · simp [ShipCard.gapVisualization, ShipCard.gapGuard, reappearsOnPrimeMeridian,
      Field.toBoolean, JsTruthy.toBoolean]

/-- C3: when the status is not DARK_SHIP_CONFIRMED, or one of `last_lat`,
`last_lon`, `next_lat`, `next_lon` is absent (null or undefined), neither map
draws any element of the gap overlay. -/
theorem gapVisualization_none_of_guard_fails (ship : Ship)
    (h : ship.status ≠ .val "DARK_SHIP_CONFIRMED" ∨ ship.last_lat.isPresent = false ∨
      ship.last_lon.isPresent = false ∨ ship.next_lat.isPresent = false ∨
      ship.next_lon.isPresent = false) :
    DarkShipMap.gapVisualization ship = none ∧ ShipCard.gapVisualization ship = none := by
  have key : ¬ (ship.status = .val "DARK_SHIP_CONFIRMED" ∧ ship.last_lat.toBoolean = true ∧
      ship.last_lon.toBoolean = true ∧ ship.next_lat.toBoolean = true ∧
      ship.next_lon.toBoolean = true) := by
    rintro ⟨hs, h1, h2, h3, h4⟩
    have p1 := Field.isPresent_of_toBoolean _ h1
    have p2 := Field.isPresent_of_toBoolean _ h2
    have p3 := Field.isPresent_of_toBoolean _ h3
    have p4 := Field.isPresent_of_toBoolean _ h4
    rcases h with h | h | h | h | h
    · exact h hs
    all_goals simp_all
  constructor
  · have hg : DarkShipMap.gapGuard ship = false := by
      rw [← Bool.not_eq_true, DarkShipMap.gapGuard_eq_true_iff]; exact key
    simp [DarkShipMap.gapVisualization, hg]
  · have hg : ShipCard.gapGuard ship = false := by
      rw [← Bool.not_eq_true, ShipCard.gapGuard_true_iff_members]; exact key
    simp [ShipCard.gapVisualization, hg]

/-- Witness of `gapVisualization_none_of_guard_fails`: a DARK_SHIP_CONFIRMED
record missing `next_lat` draws no overlay. -/
theorem gapVisualization_none_of_guard_fails_witness :
    confirmedMissingNextLat.status = .val "DARK_SHIP_CONFIRMED" ∧
    confirmedMissingNextLat.next_lat.isPresent = false ∧
    DarkShipMap.gapVisualization confirmedMissingNextLat = none ∧
    ShipCard.gapVisualization confirmedMissingNextLat = none :=
  ⟨rfl, rfl,
    gapVisualization_none_of_guard_fails confirmedMissingNextLat
      (Or.inr (Or.inr (Or.inr (Or.inl rfl))))⟩

/-! ## Average gap time -/

theorem hasGapTimes_false_of_absent (s : Ship)
    (h : s.gap_start_time.isPresent = false ∨ s.gap_end_time.isPresent = false) :
    hasGapTimes s = false := by
  rw [← Bool.not_eq_true]
  intro hg
  simp only [hasGapTimes, Bool.and_eq_true] at hg
  have p1 := Field.isPresent_of_toBoolean _ hg.1
  have p2 := Field.isPresent_of_toBoolean _ hg.2
  rcases h with h | h <;> simp_all

theorem averageGapHours_of_filter_nil (darkShips : List Ship)
    (h : darkShips.filter hasGapTimes = []) : averageGapHours darkShips = .fin 0 := by
  simp [averageGapHours, h, JsNum.div, JsNum.orZero, mathRound, roundHalfUp_zero]

theorem JsNum.add_fin (a b : ℚ) : (JsNum.fin a).add (.fin b) = .fin (a + b) := rfl

/-- Sum of the gap lengths when every summand is finite. -/
theorem foldl_gapHours_fin (l : List Ship) (hours : Ship → ℚ) (init : ℚ)
    (h : ∀ s ∈ l, gapHours s = .fin (hours s)) :
    l.foldl (fun (acc : JsNum) (ship : Ship) => acc.add (gapHours ship)) (JsNum.fin init)
      = .fin (init + (l.map hours).sum) := by
  induction l generalizing init with
  | nil => simp
  | cons x xs ih =>
    have hx : gapHours x = .fin (hours x) := h x (by simp)
    have hxs : ∀ s ∈ xs, gapHours s = .fin (hours s) := fun s hs => h s (by simp [hs])
    simp only [List.foldl_cons, hx, JsNum.add_fin, List.map_cons, List.sum_cons]
    rw [ih _ hxs, add_assoc]

theorem gapHours_of_times (s : Ship) (a b : ℚ) (ha : newDate s.gap_start_time = .fin a)
    (hb : newDate s.gap_end_time = .fin b) :
    gapHours s = .fin ((b - a) / 3600000) := by
  simp only [gapHours, ha, hb, JsNum.sub, JsNum.neg, JsNum.add, JsNum.div]
  norm_num
  ring

/-- The average over a snapshot whose qualifying records all have finite gap
lengths. -/
theorem averageGapHours_of_fin (darkShips : List Ship) (hours : Ship → ℚ)
    (h : ∀ s ∈ darkShips, hasGapTimes s = true → gapHours s = .fin (hours s)) :
    averageGapHours darkShips =
      if darkShips.filter hasGapTimes = [] then .fin 0
      else .fin (roundHalfUp (((darkShips.filter hasGapTimes).map hours).sum /
        ((darkShips.filter hasGapTimes).length : ℕ))) := by
  by_cases hnil : darkShips.filter hasGapTimes = []
  · simp [hnil, averageGapHours_of_filter_nil]
  · have hall : ∀ s ∈ darkShips.filter hasGapTimes, gapHours s = .fin (hours s) := by
      intro s hs
      rw [List.mem_filter] at hs
      exact h s hs.1 hs.2
    have hlen : (((darkShips.filter hasGapTimes).length : ℕ) : ℚ) ≠ 0 := by
      have : (darkShips.filter hasGapTimes).length ≠ 0 := by
        simpa [List.length_eq_zero] using hnil
      exact_mod_cast this
    rw [averageGapHours, foldl_gapHours_fin _ hours 0 hall]
    simp only [hnil, if_false, JsNum.div, hlen, zero_add]
    by_cases hz : ((darkShips.filter hasGapTimes).map hours).sum /
        (((darkShips.filter hasGapTimes).length : ℕ) : ℚ) = 0
    · simp [JsNum.orZero, hz, mathRound]
    · simp [JsNum.orZero, hz, mathRound]

/-- C4: when no record has both `gap_start_time` and `gap_end_time` present
(in particular for the empty snapshot), the Avg Gap Time number is exactly `0`,
a finite Number: the `0 / 0` of the empty selection does not come out as `NaN`. -/
theorem averageGapHours_zero_of_no_gap_times (darkShips : List Ship)
    (h : ∀ s ∈ darkShips, s.gap_start_time.isPresent = false ∨
      s.gap_end_time.isPresent = false) :
    averageGapHours darkShips = .fin 0 ∧ averageGapHours [] = .fin 0 := by
  refine ⟨averageGapHours_of_filter_nil _ ?_, averageGapHours_of_filter_nil _ rfl⟩
  rw [List.filter_eq_nil_iff]
  intro s hs
  simp [hasGapTimes_false_of_absent s (h s hs)]

/-- Witness of `averageGapHours_zero_of_no_gap_times`: a snapshot holding only
the orphan detection of the built-in data set, whose timestamps are `null`. -/
theorem averageGapHours_zero_of_no_gap_times_witness :
    (∀ s ∈ [SendApp.unknownVessel], s.gap_start_time.isPresent = false ∨
      s.gap_end_time.isPresent = false) ∧
    averageGapHours [SendApp.unknownVessel] = .fin 0 ∧ averageGapHours [] = .fin 0 :=
  ⟨by intro s hs; rw [List.mem_singleton] at hs; subst hs; exact Or.inl rfl,
    averageGapHours_zero_of_no_gap_times [SendApp.unknownVessel]
      (by intro s hs; rw [List.mem_singleton] at hs; subst hs; exact Or.inl rfl)⟩

theorem dateParse_empty : dateParse "" = .nan := by decide

theorem Field.toBoolean_val_of_parsed (s : String) (a : ℚ) (h : dateParse s = .fin a) :
    (Field.val s).toBoolean = true := by
  have hne : s ≠ "" := by
    rintro rfl
    rw [dateParse_empty] at h
    exact JsNum.noConfusion h
  simp [Field.toBoolean, JsTruthy.toBoolean, hne]

theorem hasGapTimes_iff (s : Ship) :
    hasGapTimes s = true ↔
      ∃ a b, a ≠ "" ∧ b ≠ "" ∧ s.gap_start_time = .val a ∧ s.gap_end_time = .val b := by
  constructor
  · intro h
    simp only [hasGapTimes, Bool.and_eq_true] at h
    obtain ⟨h1, h2⟩ := h
    cases hs : s.gap_start_time <;> cases he : s.gap_end_time <;>
      simp_all [Field.toBoolean, JsTruthy.toBoolean]
  · rintro ⟨a, b, ha, hb, hs, he⟩
    simp [hasGapTimes, hs, he, Field.toBoolean, JsTruthy.toBoolean, ha, hb]

/-- C5: for a snapshot of a single record whose two gap timestamps are present
and parse to the time values `a` and `b` (milliseconds), the Avg Gap Time
number is `(b - a) / 3600000` hours rounded to a nearest integer; the first
built-in record (2025-09-18T14:35:02Z to 2025-09-21T14:53:47Z) has a gap of
72.3125 hours and gives 72. -/
theorem averageGapHours_single (ship : Ship) (s e : String) (a b : ℚ)
    (hs : ship.gap_start_time = .val s) (he : ship.gap_end_time = .val e)
    (ha : dateParse s = .fin a) (hb : dateParse e = .fin b) :
    averageGapHours [ship] = .fin (roundHalfUp ((b - a) / 3600000)) ∧
    |(roundHalfUp ((b - a) / 3600000) : ℚ) - (b - a) / 3600000| ≤ 1 / 2 ∧
    gapHours SendApp.arcticShadow = .fin 72.3125 ∧
    averageGapHours [SendApp.arcticShadow] = .fin 72 := by
  refine ⟨?_, roundHalfUp_nearest _, by decide!, by decide!⟩
  have hg : hasGapTimes ship = true := by
    simp [hasGapTimes, hs, he, Field.toBoolean_val_of_parsed s a ha,
      Field.toBoolean_val_of_parsed e b hb]
  have hh : gapHours ship = .fin ((b - a) / 3600000) :=
    gapHours_of_times ship a b (by simp [hs, newDate, ha]) (by simp [he, newDate, hb])
  rw [averageGapHours_of_fin [ship] (fun _ => (b - a) / 3600000)
    (by intro x hx _; rw [List.mem_singleton] at hx; subst hx; exact hh)]
  simp [hg]

/-- Witness of `averageGapHours_single` at the first built-in record. -/
theorem averageGapHours_single_witness :
    dateParse "2025-09-18T14:35:02Z" = .fin 1758206102000 ∧
    dateParse "2025-09-21T14:53:47Z" = .fin 1758466427000 ∧
    averageGapHours [SendApp.arcticShadow] =
      .fin (roundHalfUp ((1758466427000 - 1758206102000) / 3600000)) :=
  ⟨by decide, by decide,
    (averageGapHours_single SendApp.arcticShadow "2025-09-18T14:35:02Z" "2025-09-21T14:53:47Z"
      1758206102000 1758466427000 rfl rfl (by decide) (by decide)).1⟩

/-- C6 (counterexample): in the snapshot of the first built-in record (gap
72.3125 h, full gap tuple) followed by a record that has both timestamps (gap
35.388 h) but no gap coordinates and no distance, the code averages both
records and shows 54, whereas the mean over the records with a fully present
gap tuple is 72. -/
theorem averageGapHours_counts_incomplete_gap_tuple :
    gapTupleComplete gapTimesOnly = false ∧
    averageGapHours [SendApp.arcticShadow, gapTimesOnly] = .fin 54 ∧
    specAverageGapHours [SendApp.arcticShadow, gapTimesOnly] = .fin 72 ∧
    averageGapHours [SendApp.arcticShadow, gapTimesOnly] ≠
      specAverageGapHours [SendApp.arcticShadow, gapTimesOnly] := by
  refine ⟨by decide, by decide!, by decide!, by decide!⟩

theorem averageGapHours_filter (darkShips : List Ship) :
    averageGapHours darkShips = averageGapHours (darkShips.filter hasGapTimes) := by
  simp [averageGapHours, List.filter_filter]

theorem gapHours_congr_times (x y : Ship) (hs : x.gap_start_time = y.gap_start_time)
    (he : x.gap_end_time = y.gap_end_time) : gapHours x = gapHours y := by
  simp only [gapHours, hs, he]

theorem foldl_gapHours_congr_times (l l' : List Ship) (init : JsNum)
    (h : l.map (fun s => (s.gap_start_time, s.gap_end_time)) =
      l'.map (fun s => (s.gap_start_time, s.gap_end_time))) :
    l.foldl (fun (acc : JsNum) (ship : Ship) => acc.add (gapHours ship)) init =
      l'.foldl (fun (acc : JsNum) (ship : Ship) => acc.add (gapHours ship)) init := by
  induction l generalizing l' init with
  | nil =>
    cases l' with
    | nil => rfl
    | cons y ys => simp at h
  | cons x xs ih =>
    cases l' with
    | nil => simp at h
    | cons y ys =>
      simp only [List.map_cons, List.cons.injEq, Prod.mk.injEq] at h
      obtain ⟨⟨hs, he⟩, hrest⟩ := h
      simp only [List.foldl_cons, gapHours_congr_times x y hs he]
      exact ih ys _ hrest

theorem averageGapHours_congr_times (l l' : List Ship)
    (h : (l.filter hasGapTimes).map (fun s => (s.gap_start_time, s.gap_end_time)) =
      (l'.filter hasGapTimes).map (fun s => (s.gap_start_time, s.gap_end_time))) :
    averageGapHours l = averageGapHours l' := by
  have hlen : (l.filter hasGapTimes).length = (l'.filter hasGapTimes).length := by
    simpa using congrArg List.length h
  simp only [averageGapHours, foldl_gapHours_congr_times _ _ _ h, hlen]

/-- C6 (amended): take a snapshot in which the records with both
`gap_start_time` and `gap_end_time` truthy have timestamps that parse (to
`start` and `stop`, in milliseconds) with `start ≤ stop`, and whose size keeps
`(n + 1) * (total gap in ms)` at most `4 * 10 ^ 15`, `n` being the number of
those records. When there is no such record the Avg Gap Time number is `0`;
otherwise it is a non-negative integer nearest to the arithmetic mean of
`(stop - start) / 3600000` over exactly those records, that is, within 1/2 of
it. A record qualifies exactly when both timestamps are non-empty strings;
the number is the same for the snapshot and for its qualifying records alone,
and the same for any two snapshots whose qualifying records carry the same
timestamps in the same order, so the other members of the gap tuple play no
part. The size bound is not needed for the exact arithmetic of this file: it
keeps the rounding error of the binary64 sum and quotient of the code below
the spacing `1 / (3600000 * n)` of the possible means, so that the statement
is the same for the exact and for the binary64 mean; at a mean of exactly
`k + 1/2` both `k` and `k + 1` are nearest. -/
theorem averageGapHours_mean_over_timestamped (darkShips : List Ship) (start stop : Ship → ℚ)
    (h : ∀ s ∈ darkShips, hasGapTimes s = true →
      newDate s.gap_start_time = .fin (start s) ∧ newDate s.gap_end_time = .fin (stop s) ∧
        start s ≤ stop s)
    (hsize : ((((darkShips.filter hasGapTimes).length : ℕ) : ℚ) + 1) *
        ((darkShips.filter hasGapTimes).map (fun s => stop s - start s)).sum ≤ 4 * 10 ^ 15) :
    (darkShips.filter hasGapTimes = [] → averageGapHours darkShips = .fin 0) ∧
    (darkShips.filter hasGapTimes ≠ [] →
      ∃ r : ℤ, averageGapHours darkShips = .fin r ∧ 0 ≤ r ∧
        |(r : ℚ) -
          ((darkShips.filter hasGapTimes).map (fun s => (stop s - start s) / 3600000)).sum /
            ((darkShips.filter hasGapTimes).length : ℕ)| ≤ 1 / 2) ∧
    (∀ s, hasGapTimes s = true ↔
      ∃ a b, a ≠ "" ∧ b ≠ "" ∧ s.gap_start_time = .val a ∧ s.gap_end_time = .val b) ∧
    averageGapHours darkShips = averageGapHours (darkShips.filter hasGapTimes) ∧
    (∀ other : List Ship,
      (other.filter hasGapTimes).map (fun s => (s.gap_start_time, s.gap_end_time)) =
        (darkShips.filter hasGapTimes).map (fun s => (s.gap_start_time, s.gap_end_time)) →
      averageGapHours other = averageGapHours darkShips) := by
  have hval := averageGapHours_of_fin darkShips (fun s => (stop s - start s) / 3600000)
    (fun s hs hg => gapHours_of_times s _ _ (h s hs hg).1 (h s hs hg).2.1)
  refine ⟨fun hnil => ?_, fun hne => ?_, hasGapTimes_iff, averageGapHours_filter darkShips,
    fun other ho => averageGapHours_congr_times other darkShips ho⟩
  · rw [hval, if_pos hnil]
  · rw [hval, if_neg hne]
    refine ⟨_, rfl, ?_, roundHalfUp_nearest _⟩
    apply roundHalfUp_nonneg
    apply div_nonneg
    · apply List.sum_nonneg
      intro x hx
      rw [List.mem_map] at hx
      obtain ⟨s, hs, rfl⟩ := hx
      rw [List.mem_filter] at hs
      have := (h s hs.1 hs.2).2.2
      apply div_nonneg <;> linarith
    · exact Nat.cast_nonneg _

/-- Witness of `averageGapHours_mean_over_timestamped`: a full record, a
record with timestamps only, and the orphan detection without timestamps;
the mean of the two gaps, 72.3125 h and 35.388 h, is 53.85 h and the number
shown is 54. -/
theorem averageGapHours_mean_over_timestamped_witness :
    ∃ r : ℤ, averageGapHours [SendApp.arcticShadow, gapTimesOnly, SendApp.unknownVessel] = .fin r ∧
      0 ≤ r ∧
      |(r : ℚ) -
        (([SendApp.arcticShadow, gapTimesOnly, SendApp.unknownVessel].filter hasGapTimes).map
            (fun s => ((newDate s.gap_end_time).toRat - (newDate s.gap_start_time).toRat)
              / 3600000)).sum /
          (([SendApp.arcticShadow, gapTimesOnly, SendApp.unknownVessel].filter
            hasGapTimes).length : ℕ)| ≤ 1 / 2 :=
  (averageGapHours_mean_over_timestamped
    [SendApp.arcticShadow, gapTimesOnly, SendApp.unknownVessel]
    (fun s => (newDate s.gap_start_time).toRat) (fun s => (newDate s.gap_end_time).toRat)
    (by decide!) (by decide!)).2.1 (by decide)

/-! ## High-risk count -/

theorem Field.gt_val (c k : ℚ) : (Field.val c).gt k = decide (k < c) := rfl

/-- C7: the High Risk number counts exactly the records whose confidence is
strictly greater than 0.8: it is `0` on the empty snapshot, a leading record
with confidence `c > 0.8` adds one, a leading record whose confidence is not
above 0.8 (or absent) adds nothing; a record with confidence exactly 0.8 is not
counted; the status plays no part; on the built-in data set the number is 4. -/
theorem highRiskCount_counts_confidence_above :
    highRiskCount [] = 0 ∧
    (∀ (s : Ship) (rest : List Ship) (c : ℚ), s.confidence = .val c → 8 / 10 < c →
      highRiskCount (s :: rest) = highRiskCount rest + 1) ∧
    (∀ (s : Ship) (rest : List Ship), (∀ c : ℚ, s.confidence = .val c → c ≤ 8 / 10) →
      highRiskCount (s :: rest) = highRiskCount rest) ∧
    (∀ (s : Ship) (rest : List Ship), s.confidence = .val (8 / 10) →
      highRiskCount (s :: rest) = highRiskCount rest) ∧
    (∀ (darkShips : List Ship) (status : Ship → Field String),
      highRiskCount (darkShips.map (fun s => { s with status := status s })) =
        highRiskCount darkShips) ∧
    highRiskCount SendApp.createArcticDummyData.dark_ships = 4 := by
  have hno : ∀ (s : Ship) (rest : List Ship), (∀ c : ℚ, s.confidence = .val c → c ≤ 8 / 10) →
      highRiskCount (s :: rest) = highRiskCount rest := by
    intro s rest h
    have hf : s.confidence.gt (8 / 10) = false := by
      cases hc : s.confidence with
      | undefined => rfl
      | null => simp [Field.gt, Field.toNumber, JsNum.gtLit]; norm_num
      | val c =>
        have := h c hc
        simp [Field.gt_val, not_lt.mpr this]
    simp [highRiskCount, List.filter_cons, hf]
  refine ⟨rfl, ?_, hno, ?_, ?_, by decide!⟩
  · intro s rest c hc h
    have ht : s.confidence.gt (8 / 10) = true := by simp [hc, Field.gt_val, h]
    simp [highRiskCount, List.filter_cons, ht]
  · intro s rest hc
    exact hno s rest (fun c h => by rw [hc] at h; cases h; exact le_refl _)
  · intro darkShips status
    simp [highRiskCount, List.filter_map, Function.comp_def]

/-! ## Recent threats -/

/-- C8: the Recent Threat Activity list has `min 3 n` entries for a snapshot
of `n` records; entry `i` is built from record `i` of the snapshot (snapshot
order, no sorting) and shows its vessel name and reason; its icon is the red
glyph when the status is DARK_SHIP_CONFIRMED and the yellow glyph for every
other status, a missing status included. -/
theorem recentThreats_first_three (darkShips : List Ship) :
    (recentThreats darkShips).length = min 3 darkShips.length ∧
    (∀ i, i < min 3 darkShips.length →
      ∃ ship, darkShips[i]? = some ship ∧
        (recentThreats darkShips)[i]? = some (threatItem ship i)) ∧
    (∀ (ship : Ship) (i : ℕ),
      (threatItem ship i).vessel = ship.target_vessel ∧
      (threatItem ship i).reason = ship.reason ∧
      (ship.status = .val "DARK_SHIP_CONFIRMED" → (threatItem ship i).icon = "🔴") ∧
      (ship.status ≠ .val "DARK_SHIP_CONFIRMED" → (threatItem ship i).icon = "🟡")) := by
  refine ⟨by simp [recentThreats], ?_, ?_⟩
  · intro i hi
    have h3 : i < 3 := lt_of_lt_of_le hi (min_le_left _ _)
    have hn : i < darkShips.length := lt_of_lt_of_le hi (min_le_right _ _)
    refine ⟨darkShips[i], List.getElem?_eq_getElem hn, ?_⟩
    simp [recentThreats, List.getElem?_enum, List.getElem?_take_of_lt h3,
      List.getElem?_eq_getElem hn]
  · intro ship i
    refine ⟨rfl, rfl, ?_, ?_⟩
    · intro h
      simp [threatItem, h, Field.strictEq]
    · intro h
      have hf : ship.status.strictEq "DARK_SHIP_CONFIRMED" = false := by
        rw [← Bool.not_eq_true, Field.strictEq_iff]; exact h
      simp [threatItem, hf]

/-! ## Selection -/

/-- C9: from every state (whatever the prior selection), a click on vessel
card `i` and a click on map marker `i` lead to the same state, in which record
`i` is selected; a second click on the same index, from the list or from the
map, changes nothing, so the selection is never toggled off. -/
theorem select_same_from_list_and_map (s : AppState) (i : ℕ) :
    (vesselCardClick i s).selectedShip = some i ∧
    (mapMarkerClick i s).selectedShip = some i ∧
    mapMarkerClick i s = vesselCardClick i s ∧
    vesselCardClick i (vesselCardClick i s) = vesselCardClick i s ∧
    mapMarkerClick i (mapMarkerClick i s) = mapMarkerClick i s ∧
    mapMarkerClick i (vesselCardClick i s) = vesselCardClick i s ∧
    vesselCardClick i (mapMarkerClick i s) = mapMarkerClick i s ∧
    (vesselCardClick i (vesselCardClick i s)).selectedShip ≠ none :=
  ⟨rfl, rfl, rfl, rfl, rfl, rfl, rfl, by simp [vesselCardClick, setSelectedShip]⟩

/-- C10 (counterexample): with the third record selected, a completed load
that installs a one-record snapshot leaves `selectedShip` at index 2 in both
variants of `App`; the selection is not reset. -/
theorem loadDarkShipData_keeps_stale_selection :
    thirdSelected.selectedShip = some 2 ∧
    (App.loadDarkShipData oneRecordBackend thirdSelected).darkShips = [SendApp.iceRunner] ∧
    (App.loadDarkShipData oneRecordBackend thirdSelected).selectedShip = some 2 ∧
    (SendApp.loadDarkShipData oneRecordBackend thirdSelected).darkShips = [SendApp.iceRunner] ∧
    (SendApp.loadDarkShipData oneRecordBackend thirdSelected).selectedShip = some 2 ∧
    (App.loadDarkShipData oneRecordBackend thirdSelected).selectedShip ≠ none ∧
    (SendApp.loadDarkShipData oneRecordBackend thirdSelected).selectedShip ≠ none :=
  ⟨rfl, rfl, rfl, rfl, rfl, by decide, by decide⟩

/-- C10 (amended): a completed run of `loadDarkShipData`, in either variant of
`App` and for every outcome of the two fetches, leaves the selection as it
was; a load that starts unselected, as the load on mount does from the initial
state, ends unselected. -/
theorem loadDarkShipData_selection_unchanged (backend : Backend) (s : AppState) :
    (App.loadDarkShipData backend s).selectedShip = s.selectedShip ∧
    (SendApp.loadDarkShipData backend s).selectedShip = s.selectedShip ∧
    (s.selectedShip = none →
      (App.loadDarkShipData backend s).selectedShip = none ∧
      (SendApp.loadDarkShipData backend s).selectedShip = none) ∧
    (App.loadDarkShipData backend AppState.initial).selectedShip = none ∧
    (SendApp.loadDarkShipData backend AppState.initial).selectedShip = none := by
  have h1 : ∀ t : AppState, (App.loadDarkShipData backend t).selectedShip = t.selectedShip := by
    intro t
    unfold App.loadDarkShipData
    cases App.tryLoad backend <;> rfl
  have h2 : ∀ t : AppState,
      (SendApp.loadDarkShipData backend t).selectedShip = t.selectedShip := by
    intro t
    unfold SendApp.loadDarkShipData
    cases SendApp.tryLoad backend <;> rfl
  refine ⟨h1 s, h2 s, ?_, ?_, ?_⟩
  · intro h
    exact ⟨(h1 s).trans h, (h2 s).trans h⟩
  · exact (h1 _).trans rfl
  · exact (h2 _).trans rfl

/-! ## Reachable states -/

/-- The invariant carried along a run: nothing is selected while the load is
pending, and a selected index lies inside the snapshot. -/
theorem stepWith_preserves_selection_bound (load : Backend → AppState → AppState)
    (hload : ∀ b s, (load b s).selectedShip = s.selectedShip) (e : Event) (s t : AppState)
    (hstep : stepWith load e s = some t)
    (hinv : (s.loading = true → s.selectedShip = none) ∧
      ∀ i, s.selectedShip = some i → i < s.darkShips.length) :
    (t.loading = true → t.selectedShip = none) ∧
      ∀ i, t.selectedShip = some i → i < t.darkShips.length := by
  obtain ⟨h1, h2⟩ := hinv
  cases e with
  | loadCompleted backend =>
    simp only [stepWith] at hstep
    split at hstep
    · rename_i hl
      cases hstep
      have hsel : (load backend s).selectedShip = none := by rw [hload, h1 hl]
      exact ⟨fun _ => hsel, fun i hi => by rw [hsel] at hi; cases hi⟩
    · cases hstep
  | vesselCardClicked index =>
    simp only [stepWith] at hstep
    split at hstep
    · rename_i hc
      cases hstep
      simp only [Bool.and_eq_true, decide_eq_true_eq, rendersLayout, Bool.not_eq_true'] at hc
      refine ⟨fun hl => ?_, fun i hi => ?_⟩
      · simp [vesselCardClick, setSelectedShip, hc.1.1.1] at hl
      · simp only [vesselCardClick, setSelectedShip, Option.some.injEq] at hi
        subst hi
        exact hc.2
    · cases hstep
  | markerClicked index =>
    simp only [stepWith] at hstep
    split at hstep
    · rename_i hc
      cases hstep
      simp only [Bool.and_eq_true, decide_eq_true_eq, rendersLayout, Bool.not_eq_true'] at hc
      refine ⟨fun hl => ?_, fun i hi => ?_⟩
      · simp [mapMarkerClick, DarkShipMap.markerClick, setSelectedShip, hc.1.1.1] at hl
      · simp only [mapMarkerClick, DarkShipMap.markerClick, setSelectedShip,
          Option.some.injEq] at hi
        subst hi
        exact hc.2
    · cases hstep
  | trackerNavClicked =>
    simp only [stepWith] at hstep
    split at hstep
    · cases hstep
      exact ⟨h1, h2⟩
    · cases hstep
  | dashboardNavClicked =>
    simp only [stepWith] at hstep
    split at hstep
    · cases hstep
      exact ⟨h1, h2⟩
    · cases hstep

theorem runWith_preserves_selection_bound (load : Backend → AppState → AppState)
    (hload : ∀ b s, (load b s).selectedShip = s.selectedShip) (events : List Event)
    (s t : AppState) (hrun : runWith load events s = some t)
    (hinv : (s.loading = true → s.selectedShip = none) ∧
      ∀ i, s.selectedShip = some i → i < s.darkShips.length) :
    (t.loading = true → t.selectedShip = none) ∧
      ∀ i, t.selectedShip = some i → i < t.darkShips.length := by
  induction events generalizing s with
  | nil =>
    simp only [runWith, Option.some.injEq] at hrun
    subst hrun
    exact hinv
  | cons e es ih =>
    simp only [runWith] at hrun
    cases hstep : stepWith load e s with
    | none => rw [hstep] at hrun; cases hrun
    | some u =>
      rw [hstep] at hrun
      exact ih u hrun (stepWith_preserves_selection_bound load hload e s u hstep hinv)

theorem App.loadDarkShipData_selectedShip (backend : Backend) (s : AppState) :
    (App.loadDarkShipData backend s).selectedShip = s.selectedShip := by
  unfold App.loadDarkShipData
  cases App.tryLoad backend <;> rfl

theorem SendApp.loadDarkShipData_selectedShip_send (backend : Backend) (s : AppState) :
    (SendApp.loadDarkShipData backend s).selectedShip = s.selectedShip := by
  unfold SendApp.loadDarkShipData
  cases SendApp.tryLoad backend <;> rfl

/-- C11: in every state that either variant of `App` reaches from the initial
state (empty snapshot, nothing selected) through the completion of the load
started on mount, vessel-card clicks, marker clicks and view switches, the
selection is `null` or an index `i` with `i < darkShips.length`. -/
theorem selection_valid_in_reachable_states (events : List Event) (s : AppState)
    (h : App.run events AppState.initial = some s ∨
      SendApp.run events AppState.initial = some s) :
    s.selectedShip = none ∨ ∃ i, s.selectedShip = some i ∧ i < s.darkShips.length := by
  have hinit : (AppState.initial.loading = true → AppState.initial.selectedShip = none) ∧
      ∀ i, AppState.initial.selectedShip = some i → i < AppState.initial.darkShips.length :=
    ⟨fun _ => rfl, fun i hi => by cases hi⟩
  have key : ∀ i, s.selectedShip = some i → i < s.darkShips.length := by
    rcases h with h | h
    · exact (runWith_preserves_selection_bound _ App.loadDarkShipData_selectedShip events _ _
        h hinit).2
    · exact (runWith_preserves_selection_bound _ SendApp.loadDarkShipData_selectedShip_send events
        _ _ h hinit).2
  cases hs : s.selectedShip with
  | none => exact Or.inl rfl
  | some i => exact Or.inr ⟨i, rfl, key i hs⟩

/-- Witness of `selection_valid_in_reachable_states`: the load falls back to
the built-in data set, the third marker is clicked, the dashboard is opened. -/
theorem selection_valid_in_reachable_states_witness :
    SendApp.run [.loadCompleted primaryDownBackend, .markerClicked 2, .dashboardNavClicked]
      AppState.initial = some thirdSelectedOnDashboard ∧
    (thirdSelectedOnDashboard.selectedShip = none ∨
      ∃ i, thirdSelectedOnDashboard.selectedShip = some i ∧
        i < thirdSelectedOnDashboard.darkShips.length) :=
  ⟨rfl, selection_valid_in_reachable_states
    [.loadCompleted primaryDownBackend, .markerClicked 2, .dashboardNavClicked]
    thirdSelectedOnDashboard (Or.inr rfl)⟩

/-! ## Camera -/

/-- C12: the effect of `MapCenterController` calls `map.setView` exactly when
a record index is selected and the snapshot has a record at that index; the
call then carries that record's `lat` and `lon`, zoom 8 and `animate: true`.
With nothing selected, or an index outside the snapshot, no call is made. -/
theorem mapCenterEffect_issued_iff (selectedShip : Option ℕ) (darkShips : List Ship) :
    (∀ v, DarkShipMap.mapCenterEffect selectedShip darkShips = some v ↔
      ∃ i ship, selectedShip = some i ∧ darkShips[i]? = some ship ∧
        v = { center := (ship.lat, ship.lon), zoom := 8, animate := true }) ∧
    ((DarkShipMap.mapCenterEffect selectedShip darkShips).isSome = true ↔
      ∃ i, selectedShip = some i ∧ i < darkShips.length) ∧
    (selectedShip = none → DarkShipMap.mapCenterEffect selectedShip darkShips = none) ∧
    (∀ i, selectedShip = some i → darkShips.length ≤ i →
      DarkShipMap.mapCenterEffect selectedShip darkShips = none) := by
  cases selectedShip with
  | none => simp [DarkShipMap.mapCenterEffect]
  | some j =>
    cases hj : darkShips[j]? with
    | none =>
      have hlen : darkShips.length ≤ j := List.getElem?_eq_none_iff.mp hj
      simp [DarkShipMap.mapCenterEffect, hj, hlen]
    | some ship =>
      have hlen : j < darkShips.length := by
        by_contra hcon
        rw [List.getElem?_eq_none_iff.mpr (not_lt.mp hcon)] at hj
        cases hj
      refine ⟨fun v => ?_, ?_, ?_, ?_⟩
      · simp only [DarkShipMap.mapCenterEffect, hj, Option.some.injEq]
        constructor
        · intro hv
          exact ⟨j, ship, rfl, hj, hv.symm⟩
        · rintro ⟨i, ship2, hi, hs, hv⟩
          cases hi
          rw [hj] at hs
          cases hs
          exact hv.symm
      · simp [DarkShipMap.mapCenterEffect, hj, hlen]
      · intro h
        cases h
      · intro i hi hle
        cases hi
        exact absurd hlen (not_lt.mpr hle)

/-! ## Marker icon -/

/-- C13: the marker colour of `createDarkShipIcon` is `#dc2626` for status
DARK_SHIP_CONFIRMED with confidence above 0.8, `#ea580c` for status
DARK_SHIP_CONFIRMED with confidence at most 0.8, `#f59e0b` for status
ORPHAN_DETECTION and `#6b7280` for every other status; it is the same whether
or not the marker is selected. -/
theorem createDarkShipIcon_color (c : ℚ) (status : Field String) (isSelected : Bool) :
    (status = .val "DARK_SHIP_CONFIRMED" → 8 / 10 < c →
      (DarkShipMap.createDarkShipIcon (.val c) status isSelected).backgroundColor = "#dc2626") ∧
    (status = .val "DARK_SHIP_CONFIRMED" → c ≤ 8 / 10 →
      (DarkShipMap.createDarkShipIcon (.val c) status isSelected).backgroundColor = "#ea580c") ∧
    (status = .val "ORPHAN_DETECTION" →
      (DarkShipMap.createDarkShipIcon (.val c) status isSelected).backgroundColor = "#f59e0b") ∧
    (status ≠ .val "DARK_SHIP_CONFIRMED" → status ≠ .val "ORPHAN_DETECTION" →
      (DarkShipMap.createDarkShipIcon (.val c) status isSelected).backgroundColor = "#6b7280") ∧
    (DarkShipMap.createDarkShipIcon (.val c) status true).backgroundColor =
      (DarkShipMap.createDarkShipIcon (.val c) status false).backgroundColor := by
  refine ⟨?_, ?_, ?_, ?_, rfl⟩
  · intro hs hc
    simp [DarkShipMap.createDarkShipIcon, DarkShipMap.getStatusColor, hs, Field.strictEq,
      Field.gt_val, hc]
  · intro hs hc
    simp [DarkShipMap.createDarkShipIcon, DarkShipMap.getStatusColor, hs, Field.strictEq,
      Field.gt_val, not_lt.mpr hc]
  · intro hs
    simp [DarkShipMap.createDarkShipIcon, DarkShipMap.getStatusColor, hs, Field.strictEq]
  · intro h1 h2
    have f1 : status.strictEq "DARK_SHIP_CONFIRMED" = false := by
      rw [← Bool.not_eq_true, Field.strictEq_iff]; exact h1
    have f2 : status.strictEq "ORPHAN_DETECTION" = false := by
      rw [← Bool.not_eq_true, Field.strictEq_iff]; exact h2
    simp [DarkShipMap.createDarkShipIcon, DarkShipMap.getStatusColor, f1, f2]

/-- C14: the marker size of `createDarkShipIcon` is 24 whenever the marker is
selected, whatever the confidence, and otherwise 20 for confidence above 0.8,
18 for confidence above 0.6 and at most 0.8, and 16 for confidence at most
0.6; every unselected size is strictly below the selected size; the icon is a
square of that size anchored at its centre. -/
theorem createDarkShipIcon_size (c : ℚ) (status : Field String) (isSelected : Bool) :
    (DarkShipMap.createDarkShipIcon (.val c) status true).size = 24 ∧
    (8 / 10 < c → (DarkShipMap.createDarkShipIcon (.val c) status false).size = 20) ∧
    (6 / 10 < c → c ≤ 8 / 10 →
      (DarkShipMap.createDarkShipIcon (.val c) status false).size = 18) ∧
    (c ≤ 6 / 10 → (DarkShipMap.createDarkShipIcon (.val c) status false).size = 16) ∧
    (DarkShipMap.createDarkShipIcon (.val c) status false).size <
      (DarkShipMap.createDarkShipIcon (.val c) status true).size ∧
    (DarkShipMap.createDarkShipIcon (.val c) status isSelected).iconSize =
      ((DarkShipMap.createDarkShipIcon (.val c) status isSelected).size,
        (DarkShipMap.createDarkShipIcon (.val c) status isSelected).size) ∧
    (DarkShipMap.createDarkShipIcon (.val c) status isSelected).iconAnchor =
      (((DarkShipMap.createDarkShipIcon (.val c) status isSelected).size : ℚ) / 2,
        ((DarkShipMap.createDarkShipIcon (.val c) status isSelected).size : ℚ) / 2) := by
  refine ⟨rfl, ?_, ?_, ?_, ?_, rfl, rfl⟩
  · intro h
    simp [DarkShipMap.createDarkShipIcon, DarkShipMap.markerSize, Field.gt_val, h]
  · intro h6 h8
    simp [DarkShipMap.createDarkShipIcon, DarkShipMap.markerSize, Field.gt_val, h6,
      not_lt.mpr h8]
  · intro h6
    have h8 : c ≤ 8 / 10 := by linarith
    simp [DarkShipMap.createDarkShipIcon, DarkShipMap.markerSize, Field.gt_val,
      not_lt.mpr h6, not_lt.mpr h8]
  · show DarkShipMap.markerSize (.val c) false < DarkShipMap.markerSize (.val c) true
    simp only [DarkShipMap.markerSize, if_true, Bool.false_eq_true, if_false]
    split_ifs <;> decide

/-! ## MMSI and vessel name texts -/

/-- C15: on the vessel card of the tracker list and in the ShipCard detail,
the MMSI reads "Unknown" when `target_mmsi` is `0` and when it is absent (null
or undefined), and is the decimal numeral of `target_mmsi` for every non-zero
value; the first built-in record shows 316054321. -/
theorem mmsi_unknown_on_card_and_detail (ship : Ship) :
    (ship.target_mmsi = .val 0 ∨ ship.target_mmsi = .null ∨ ship.target_mmsi = .undefined →
      vesselCardMmsi ship = "MMSI: Unknown" ∧ ShipCard.mmsiDetail ship = "Unknown") ∧
    (∀ n : ℤ, n ≠ 0 → ship.target_mmsi = .val n →
      vesselCardMmsi ship = "MMSI: " ++ toString n ∧ ShipCard.mmsiDetail ship = toString n) ∧
    vesselCardMmsi SendApp.arcticShadow = "MMSI: 316054321" ∧
    ShipCard.mmsiDetail SendApp.arcticShadow = "316054321" := by
  refine ⟨?_, ?_, by decide, by decide⟩
  · rintro (h | h | h) <;>
      simp [vesselCardMmsi, ShipCard.mmsiDetail, h, Field.jsxNum, JsxValue.or,
        JsxValue.toBoolean, JsxValue.text]
  · intro n hn h
    simp [vesselCardMmsi, ShipCard.mmsiDetail, h, Field.jsxNum, JsxValue.or,
      JsxValue.toBoolean, JsxValue.text, hn]

/-- C16 (counterexample): `DarkShipSummary` of the Dashboard component prints
no MMSI text at all for a record without `target_mmsi`, and the text "0" for
the built-in orphan record, whose `target_mmsi` is `0`; neither is "Unknown". -/
theorem darkShipSummary_mmsi_not_unknown :
    mmsiMissing.target_mmsi = .undefined ∧
    Dashboard.darkShipSummaryMmsi mmsiMissing = "" ∧
    SendApp.unknownVessel.target_mmsi = .val 0 ∧
    Dashboard.darkShipSummaryMmsi SendApp.unknownVessel = "0" :=
  ⟨rfl, by decide, rfl, by decide⟩

/-- C16 (amended): the views that print an MMSI label for an unknown MMSI,
which are the vessel card, the ShipCard detail and `ShipDetailCard` of the
ImageViewer, read "Unknown" when `target_mmsi` is `0` or absent;
`DarkShipSummary` of the Dashboard prints no MMSI text when `target_mmsi` is
absent; for a non-zero `target_mmsi` both `DarkShipSummary` and
`ShipDetailCard` print its decimal numeral. -/
theorem mmsi_unknown_where_labelled (ship : Ship) :
    (ship.target_mmsi = .val 0 ∨ ship.target_mmsi = .null ∨ ship.target_mmsi = .undefined →
      vesselCardMmsi ship = "MMSI: Unknown" ∧ ShipCard.mmsiDetail ship = "Unknown" ∧
        ImageViewer.shipDetailCardMmsi ship = "MMSI: Unknown") ∧
    (ship.target_mmsi = .null ∨ ship.target_mmsi = .undefined →
      Dashboard.darkShipSummaryMmsi ship = "") ∧
    (∀ n : ℤ, n ≠ 0 → ship.target_mmsi = .val n →
      Dashboard.darkShipSummaryMmsi ship = "MMSI: " ++ toString n ∧
        ImageViewer.shipDetailCardMmsi ship = "MMSI: " ++ toString n) := by
  refine ⟨?_, ?_, ?_⟩
  · rintro (h | h | h) <;>
      simp [vesselCardMmsi, ShipCard.mmsiDetail, ImageViewer.shipDetailCardMmsi, h,
        Field.jsxNum, JsxValue.or, JsxValue.and, JsxValue.toBoolean, JsxValue.text]
  · rintro (h | h) <;>
      simp [Dashboard.darkShipSummaryMmsi, h, Field.jsxNum, JsxValue.and,
        JsxValue.toBoolean, JsxValue.text]
  · intro n hn h
    simp [Dashboard.darkShipSummaryMmsi, ImageViewer.shipDetailCardMmsi, h, Field.jsxNum,
      Field.strictNeZero, JsxValue.and, JsxValue.toBoolean, JsxValue.text, hn]

/-- C17 (evaluation at the failing record): for a record without
`target_vessel`, the heading of the vessel card and the vessel line of its
Recent Threat Activity entry are empty, while the ShipCard title reads
"UNKNOWN VESSEL". -/
theorem vessel_name_blank_when_absent :
    vesselNameMissing.target_vessel = .undefined ∧
    vesselCardName vesselNameMissing = "" ∧
    (recentThreats [vesselNameMissing]).map ThreatItem.vesselText = [""] ∧
    ShipCard.titleName vesselNameMissing = "UNKNOWN VESSEL" :=
  ⟨rfl, by decide, by decide, by decide⟩

/-! ## Loading: what enters the snapshot -/

/-- C18 (counterexample): a primary payload holding a record with latitude 95,
a record without confidence and a confirmed record missing `next_lat`, none of
which passes the acceptance test of the specification, becomes the snapshot
as it is, in both variants of `App`. -/
theorem loadDarkShipData_admits_invalid_records :
    specValidRecord latitudeOutOfRange = false ∧
    specValidRecord confidenceMissing = false ∧
    specValidRecord confirmedMissingNextLat = false ∧
    (App.loadDarkShipData invalidRecordsBackend AppState.initial).darkShips =
      [latitudeOutOfRange, confidenceMissing, confirmedMissingNextLat] ∧
    (SendApp.loadDarkShipData invalidRecordsBackend AppState.initial).darkShips =
      [latitudeOutOfRange, confidenceMissing, confirmedMissingNextLat] :=
  ⟨by decide!, by decide!, by decide!, rfl, rfl⟩

/-- C18 (amended): the loader applies no per-record check. Whatever records
the `dark_ships` array of the adopted payload holds, from a successful primary
response or from a successful secondary response after an unsuccessful primary
one, the snapshot is exactly that array, unchanged and in order, in both
variants of `App`. -/
theorem loadDarkShipData_adopts_payload_unchanged (ships : List Ship) (other : FetchOutcome)
    (body : JsonBody) (s : AppState) :
    (App.loadDarkShipData
      { primary := .resolved { ok := true, body := .data (some ships) }, secondary := other }
      s).darkShips = ships ∧
    (SendApp.loadDarkShipData
      { primary := .resolved { ok := true, body := .data (some ships) }, secondary := other }
      s).darkShips = ships ∧
    (App.loadDarkShipData
      { primary := .resolved { ok := false, body := body }
        secondary := .resolved { ok := true, body := .data (some ships) } } s).darkShips = ships ∧
    (SendApp.loadDarkShipData
      { primary := .resolved { ok := false, body := body }
        secondary := .resolved { ok := true, body := .data (some ships) } } s).darkShips = ships :=
  ⟨rfl, rfl, rfl, rfl⟩

/-! ## Loading: the order of the sources -/

/-- C19: in `send/src/App.js`, (a) a successful primary response whose body
parses (to a JSON value other than `null`) makes the snapshot the `dark_ships`
of that body (the empty collection when the member is missing), only the
primary URL is fetched, and the outcome of the secondary source plays no part; (b) after an unsuccessful
primary response, a successful secondary response with a parseable body makes
the snapshot the `dark_ships` of the secondary body, the URLs being fetched in
the order primary, secondary; (c) when neither response is successful the
snapshot is the built-in data set of six records. -/
theorem sendApp_load_first_success_wins (s : AppState) :
    (∀ (d : Option (List Ship)) (other : FetchOutcome),
      (SendApp.loadDarkShipData
        { primary := .resolved { ok := true, body := .data d }, secondary := other }
        s).darkShips = d.getD [] ∧
      fetched { primary := .resolved { ok := true, body := .data d }, secondary := other }
        = [primaryUrl]) ∧
    (∀ (body : JsonBody) (d : Option (List Ship)),
      (SendApp.loadDarkShipData
        { primary := .resolved { ok := false, body := body }
          secondary := .resolved { ok := true, body := .data d } } s).darkShips = d.getD [] ∧
      fetched
        { primary := .resolved { ok := false, body := body }
          secondary := .resolved { ok := true, body := .data d } }
        = [primaryUrl, secondaryUrl]) ∧
    (∀ (body1 body2 : JsonBody),
      (SendApp.loadDarkShipData
        { primary := .resolved { ok := false, body := body1 }
          secondary := .resolved { ok := false, body := body2 } } s).darkShips =
        SendApp.createArcticDummyData.dark_ships) ∧
    SendApp.createArcticDummyData.dark_ships.length = 6 := by
  refine ⟨?_, ?_, ?_, rfl⟩
  · intro d other
    cases d <;> exact ⟨rfl, rfl⟩
  · intro body d
    cases d <;> exact ⟨rfl, rfl⟩
  · intro body1 body2
    rfl

/-- C20 (counterexample): when the primary fetch is rejected by a network
error, or the primary response is successful but its body is not JSON, the
secondary URL is not fetched although it would have delivered a one-record
payload: `send/src/App.js` installs the built-in data set at once, and
`src/App.js` leaves the snapshot empty. -/
theorem load_skips_secondary_after_thrown_failure :
    fetched primaryDownBackend = [primaryUrl] ∧
    (SendApp.loadDarkShipData primaryDownBackend AppState.initial).darkShips =
      SendApp.createArcticDummyData.dark_ships ∧
    (App.loadDarkShipData primaryDownBackend AppState.initial).darkShips = [] ∧
    fetched primaryGarbledBackend = [primaryUrl] ∧
    (SendApp.loadDarkShipData primaryGarbledBackend AppState.initial).darkShips =
      SendApp.createArcticDummyData.dark_ships ∧
    (App.loadDarkShipData primaryGarbledBackend AppState.initial).darkShips = [] ∧
    SendApp.createArcticDummyData.dark_ships ≠ [SendApp.iceRunner] :=
  ⟨rfl, rfl, rfl, rfl, rfl, rfl, by
    intro h
    have hlen := congrArg List.length h
    exact absurd hlen (by decide)⟩

/-- C20 (amended): only a primary response that arrives with `ok` false makes
the loader fetch the secondary source. A rejected primary fetch or an
unparseable body of a successful primary response is caught without any
further fetch; a rejected secondary fetch or an unparseable body of a
successful secondary response is caught as well. After each of these
failures `send/src/App.js` installs the built-in data set and `src/App.js`
leaves the snapshot as it was; `send/src/App.js` also installs the built-in
data set when the secondary response is not successful. -/
theorem load_falls_back_only_on_not_ok (s : AppState) :
    (∀ other : FetchOutcome,
      fetched { primary := .rejected, secondary := other } = [primaryUrl] ∧
      (SendApp.loadDarkShipData { primary := .rejected, secondary := other } s).darkShips =
        SendApp.createArcticDummyData.dark_ships ∧
      (App.loadDarkShipData { primary := .rejected, secondary := other } s).darkShips =
        s.darkShips) ∧
    (∀ other : FetchOutcome,
      fetched { primary := .resolved { ok := true, body := .unparseable }, secondary := other }
        = [primaryUrl] ∧
      (SendApp.loadDarkShipData
        { primary := .resolved { ok := true, body := .unparseable }, secondary := other }
        s).darkShips = SendApp.createArcticDummyData.dark_ships ∧
      (App.loadDarkShipData
        { primary := .resolved { ok := true, body := .unparseable }, secondary := other }
        s).darkShips = s.darkShips) ∧
    (∀ (body : JsonBody) (other : FetchOutcome),
      fetched { primary := .resolved { ok := false, body := body }, secondary := other }
        = [primaryUrl, secondaryUrl]) ∧
    (∀ body : JsonBody,
      (SendApp.loadDarkShipData
        { primary := .resolved { ok := false, body := body }, secondary := .rejected }
        s).darkShips = SendApp.createArcticDummyData.dark_ships ∧
      (App.loadDarkShipData
        { primary := .resolved { ok := false, body := body }, secondary := .rejected }
        s).darkShips = s.darkShips) ∧
    (∀ body : JsonBody,
      (SendApp.loadDarkShipData
        { primary := .resolved { ok := false, body := body }
          secondary := .resolved { ok := true, body := .unparseable } } s).darkShips =
        SendApp.createArcticDummyData.dark_ships ∧
      (App.loadDarkShipData
        { primary := .resolved { ok := false, body := body }
          secondary := .resolved { ok := true, body := .unparseable } } s).darkShips =
        s.darkShips) ∧
    (∀ body1 body2 : JsonBody,
      (SendApp.loadDarkShipData
        { primary := .resolved { ok := false, body := body1 }
          secondary := .resolved { ok := false, body := body2 } } s).darkShips =
        SendApp.createArcticDummyData.dark_ships) :=
  ⟨fun _ => ⟨rfl, rfl, rfl⟩, fun _ => ⟨rfl, rfl, rfl⟩, fun _ _ => rfl,
    fun _ => ⟨rfl, rfl⟩, fun _ => ⟨rfl, rfl⟩, fun _ _ => rfl⟩

/-! ## Loading: error state, adopted bodies, missing member -/

theorem App.loadDarkShipData_error (backend : Backend) (s : AppState) :
    (App.loadDarkShipData backend s).error = s.error := by
  unfold App.loadDarkShipData
  cases App.tryLoad backend <;> rfl

theorem SendApp.loadDarkShipData_error_send (backend : Backend) (s : AppState) :
    (SendApp.loadDarkShipData backend s).error = s.error := by
  unfold SendApp.loadDarkShipData
  cases SendApp.tryLoad backend <;> rfl

theorem App.loadDarkShipData_loading (backend : Backend) (s : AppState) :
    (App.loadDarkShipData backend s).loading = false := by
  unfold App.loadDarkShipData
  cases App.tryLoad backend <;> rfl

theorem SendApp.loadDarkShipData_loading_send (backend : Backend) (s : AppState) :
    (SendApp.loadDarkShipData backend s).loading = false := by
  unfold SendApp.loadDarkShipData
  cases SendApp.tryLoad backend <;> rfl

theorem stepWith_preserves_error (load : Backend → AppState → AppState)
    (hload : ∀ b s, (load b s).error = s.error) (e : Event) (s t : AppState)
    (hstep : stepWith load e s = some t) : t.error = s.error := by
  cases e <;> simp only [stepWith] at hstep <;> split at hstep <;>
    first
      | (cases hstep; first | exact hload _ _ | rfl)
      | cases hstep

theorem runWith_preserves_error (load : Backend → AppState → AppState)
    (hload : ∀ b s, (load b s).error = s.error) (events : List Event) (s t : AppState)
    (hrun : runWith load events s = some t) : t.error = s.error := by
  induction events generalizing s with
  | nil =>
    simp only [runWith, Option.some.injEq] at hrun
    rw [hrun]
  | cons e es ih =>
    simp only [runWith] at hrun
    cases hstep : stepWith load e s with
    | none => rw [hstep] at hrun; cases hrun
    | some u =>
      rw [hstep] at hrun
      rw [ih u hrun, stepWith_preserves_error load hload e s u hstep]

/-- C21 (counterexample): when both sources answer 404 with a body that is
not JSON, `src/App.js` ends the load with the snapshot still empty, no error
state and the main layout on screen, and `send/src/App.js` ends it with the
six built-in records as the snapshot, `error` still `null` and the error
screen not shown. -/
theorem load_failure_sets_no_error_indicator :
    App.tryLoad bothNotFoundBackend = none ∧
    (App.loadDarkShipData bothNotFoundBackend AppState.initial).darkShips = [] ∧
    (App.loadDarkShipData bothNotFoundBackend AppState.initial).error = none ∧
    rendersLayout (App.loadDarkShipData bothNotFoundBackend AppState.initial) = true ∧
    (SendApp.loadDarkShipData bothNotFoundBackend AppState.initial).darkShips =
      SendApp.createArcticDummyData.dark_ships ∧
    (SendApp.loadDarkShipData bothNotFoundBackend AppState.initial).darkShips.length = 6 ∧
    (SendApp.loadDarkShipData bothNotFoundBackend AppState.initial).error = none ∧
    SendApp.rendersErrorScreen
      (SendApp.loadDarkShipData bothNotFoundBackend AppState.initial) = false :=
  ⟨rfl, rfl, rfl, rfl, rfl, rfl, rfl, rfl⟩

/-- C21 (amended): a completed run of `loadDarkShipData` never sets an error
indicator, whether the sources fail or succeed: in both variants of `App` it
leaves `error` as it was and ends with `loading` false. When the `try` block
throws, `src/App.js` leaves the snapshot as it was (empty for the load on
mount) and `send/src/App.js` installs the built-in data set. In no state
reached from the initial state is `error` set, so the error screen with the
Retry button of `send/src/App.js` is never shown. -/
theorem loadDarkShipData_never_sets_error (backend : Backend) (s : AppState) :
    (App.loadDarkShipData backend s).error = s.error ∧
    (SendApp.loadDarkShipData backend s).error = s.error ∧
    (App.loadDarkShipData backend s).loading = false ∧
    (SendApp.loadDarkShipData backend s).loading = false ∧
    (App.tryLoad backend = none → (App.loadDarkShipData backend s).darkShips = s.darkShips) ∧
    (App.tryLoad backend = none →
      (App.loadDarkShipData backend AppState.initial).darkShips = []) ∧
    (SendApp.tryLoad backend = none →
      (SendApp.loadDarkShipData backend s).darkShips =
        SendApp.createArcticDummyData.dark_ships) ∧
    (∀ (events : List Event) (t : AppState),
      App.run events AppState.initial = some t ∨ SendApp.run events AppState.initial = some t →
      t.error = none ∧ SendApp.rendersErrorScreen t = false) := by
  refine ⟨App.loadDarkShipData_error backend s, SendApp.loadDarkShipData_error_send backend s,
    App.loadDarkShipData_loading backend s, SendApp.loadDarkShipData_loading_send backend s,
    ?_, ?_, ?_, ?_⟩
  · intro h
    simp [App.loadDarkShipData, h]
  · intro h
    simp [App.loadDarkShipData, h, AppState.initial]
  · intro h
    simp [SendApp.loadDarkShipData, h]
  · intro events t h
    have herr : t.error = none := by
      rcases h with h | h
      · exact runWith_preserves_error _ App.loadDarkShipData_error events _ _ h
      · exact runWith_preserves_error _ SendApp.loadDarkShipData_error_send events _ _ h
    exact ⟨herr, by simp [SendApp.rendersErrorScreen, herr]⟩

/-- C22 (evaluation at the failing input): the primary source answers 404 and
the secondary source answers with a non-success status and a JSON body
carrying one record; `src/App.js` makes that record the snapshot, while
`send/src/App.js` installs the built-in data set. In `send/src/App.js` the
snapshot is, for every combination of outcomes, the built-in data set or the
`dark_ships` of a response that arrived with `ok` true. -/
theorem app_adopts_body_of_failed_secondary :
    fetched failedSecondaryWithRecordsBackend = [primaryUrl, secondaryUrl] ∧
    (App.loadDarkShipData failedSecondaryWithRecordsBackend AppState.initial).darkShips =
      [SendApp.iceRunner] ∧
    (SendApp.loadDarkShipData failedSecondaryWithRecordsBackend AppState.initial).darkShips =
      SendApp.createArcticDummyData.dark_ships ∧
    (∀ (backend : Backend) (s : AppState),
      (SendApp.loadDarkShipData backend s).darkShips =
        SendApp.createArcticDummyData.dark_ships ∨
      (∃ d : Option (List Ship),
        backend.primary = .resolved { ok := true, body := .data d } ∧
        (SendApp.loadDarkShipData backend s).darkShips = d.getD []) ∨
      (∃ (body : JsonBody) (d : Option (List Ship)),
        backend.primary = .resolved { ok := false, body := body } ∧
        backend.secondary = .resolved { ok := true, body := .data d } ∧
        (SendApp.loadDarkShipData backend s).darkShips = d.getD [])) := by
  refine ⟨rfl, rfl, rfl, ?_⟩
  intro backend s
  obtain ⟨primary, secondary⟩ := backend
  cases primary with
  | rejected => exact Or.inl rfl
  | resolved first =>
    obtain ⟨ok1, body1⟩ := first
    cases ok1 with
    | true =>
      cases body1 with
      | unparseable => exact Or.inl rfl
      | nullValue => exact Or.inl rfl
      | data d => exact Or.inr (Or.inl ⟨d, rfl, by cases d <;> rfl⟩)
    | false =>
      cases secondary with
      | rejected => exact Or.inl rfl
      | resolved second =>
        obtain ⟨ok2, body2⟩ := second
        cases ok2 with
        | false => exact Or.inl rfl
        | true =>
          cases body2 with
          | unparseable => exact Or.inl rfl
          | nullValue => exact Or.inl rfl
          | data d => exact Or.inr (Or.inr ⟨body1, d, rfl, rfl, by cases d <;> rfl⟩)

/-- C23: when the adopted payload, from a successful primary response or from
a successful secondary response after an unsuccessful primary one, parses to
a value (other than `null`) without a `dark_ships` member, the `try` block does not throw, the
snapshot is the empty collection, `loading` ends false, `error` is left as it
was and the Total Threats number is 0, in both variants of `App`. -/
theorem load_without_dark_ships_member_gives_empty (other : FetchOutcome) (body : JsonBody)
    (s : AppState) :
    (App.tryLoad { primary := .resolved { ok := true, body := .data none }, secondary := other }
        = some [] ∧
      (App.loadDarkShipData
        { primary := .resolved { ok := true, body := .data none }, secondary := other }
        s).darkShips = [] ∧
      (App.loadDarkShipData
        { primary := .resolved { ok := true, body := .data none }, secondary := other }
        s).loading = false ∧
      (App.loadDarkShipData
        { primary := .resolved { ok := true, body := .data none }, secondary := other }
        s).error = s.error ∧
      totalCount (App.loadDarkShipData
        { primary := .resolved { ok := true, body := .data none }, secondary := other }
        s).darkShips = 0) ∧
    (SendApp.tryLoad
        { primary := .resolved { ok := true, body := .data none }, secondary := other }
        = some [] ∧
      (SendApp.loadDarkShipData
        { primary := .resolved { ok := true, body := .data none }, secondary := other }
        s).darkShips = [] ∧
      (SendApp.loadDarkShipData
        { primary := .resolved { ok := true, body := .data none }, secondary := other }
        s).loading = false ∧
      (SendApp.loadDarkShipData
        { primary := .resolved { ok := true, body := .data none }, secondary := other }
        s).error = s.error ∧
      totalCount (SendApp.loadDarkShipData
        { primary := .resolved { ok := true, body := .data none }, secondary := other }
        s).darkShips = 0) ∧
    ((App.loadDarkShipData
        { primary := .resolved { ok := false, body := body }
          secondary := .resolved { ok := true, body := .data none } } s).darkShips = [] ∧
      (App.loadDarkShipData
        { primary := .resolved { ok := false, body := body }
          secondary := .resolved { ok := true, body := .data none } } s).loading = false ∧
      (App.loadDarkShipData
        { primary := .resolved { ok := false, body := body }
          secondary := .resolved { ok := true, body := .data none } } s).error = s.error) ∧
    ((SendApp.loadDarkShipData
        { primary := .resolved { ok := false, body := body }
          secondary := .resolved { ok := true, body := .data none } } s).darkShips = [] ∧
      (SendApp.loadDarkShipData
        { primary := .resolved { ok := false, body := body }
          secondary := .resolved { ok := true, body := .data none } } s).loading = false ∧
      (SendApp.loadDarkShipData
        { primary := .resolved { ok := false, body := body }
          secondary := .resolved { ok := true, body := .data none } } s).error = s.error) :=
  ⟨⟨rfl, rfl, rfl, rfl, rfl⟩, ⟨rfl, rfl, rfl, rfl, rfl⟩, ⟨rfl, rfl, rfl⟩, ⟨rfl, rfl, rfl⟩⟩

/-! ## Frame conditions -/

/-- C24: switching the view, to the tracker or to the dashboard, changes the
`currentView` member only: the selection, the snapshot and every other member
of the state are as before; selecting a record, from a vessel card or from a
map marker, changes the `selectedShip` member only. -/
theorem view_switch_and_selection_frames (s : AppState) (view : String) (index : ℕ) :
    setCurrentView view s = { s with currentView := view } ∧
    (setCurrentView "tracker" s).currentView = "tracker" ∧
    (setCurrentView "dashboard" s).currentView = "dashboard" ∧
    (setCurrentView view s).selectedShip = s.selectedShip ∧
    (setCurrentView view s).darkShips = s.darkShips ∧
    (setCurrentView view s).loading = s.loading ∧
    (setCurrentView view s).error = s.error ∧
    (setCurrentView view s).mapView = s.mapView ∧
    (vesselCardClick index s).selectedShip = some index ∧
    (vesselCardClick index s).currentView = s.currentView ∧
    (vesselCardClick index s).darkShips = s.darkShips ∧
    (vesselCardClick index s).loading = s.loading ∧
    (vesselCardClick index s).error = s.error ∧
    (vesselCardClick index s).mapView = s.mapView ∧
    (mapMarkerClick index s).selectedShip = some index ∧
    (mapMarkerClick index s).currentView = s.currentView ∧
    (mapMarkerClick index s).darkShips = s.darkShips ∧
    (mapMarkerClick index s).loading = s.loading ∧
    (mapMarkerClick index s).error = s.error ∧
    (mapMarkerClick index s).mapView = s.mapView ∧
    (∀ (load : Backend → AppState → AppState) (t : AppState),
      stepWith load .trackerNavClicked s = some t ∨
        stepWith load .dashboardNavClicked s = some t →
      t.selectedShip = s.selectedShip ∧ t.darkShips = s.darkShips) := by
  refine ⟨rfl, rfl, rfl, rfl, rfl, rfl, rfl, rfl, rfl, rfl, rfl, rfl, rfl, rfl, rfl, rfl, rfl,
    rfl, rfl, rfl, ?_⟩
  intro load t h
  rcases h with h | h <;> simp only [stepWith] at h <;> split at h <;>
    first
      | (cases h; exact ⟨rfl, rfl⟩)
      | cases h

/-! ## The built-in data set -/

/-- C25: the built-in data set has exactly six records; exactly one of them,
the third, has status ORPHAN_DETECTION, with `target_mmsi` 0 and no member of
the gap tuple (no timestamps, no gap coordinates, no distance); the other
five have status DARK_SHIP_CONFIRMED and a fully present gap tuple; every
record has `lat` in [-90, 90], `lon` in [-180, 180] and `confidence` in
[0, 1], a gap tuple that is all present or all absent, `gap_end_time` not
before `gap_start_time` when given, and a non-negative `distance_km` when
given. -/
theorem fixture_satisfies_record_constraints :
    SendApp.createArcticDummyData.dark_ships.length = 6 ∧
    SendApp.createArcticDummyData.dark_ships.filter
        (fun s => s.status.strictEq "ORPHAN_DETECTION") = [SendApp.unknownVessel] ∧
    SendApp.unknownVessel.target_mmsi = .val 0 ∧
    gapTupleAbsent SendApp.unknownVessel = true ∧
    SendApp.createArcticDummyData.dark_ships.filter
        (fun s => s.status.strictEq "DARK_SHIP_CONFIRMED") =
      [SendApp.arcticShadow, SendApp.northernGhost, SendApp.iceRunner, SendApp.phantomFisher,
        SendApp.arcticWanderer] ∧
    [SendApp.arcticShadow, SendApp.northernGhost, SendApp.iceRunner, SendApp.phantomFisher,
        SendApp.arcticWanderer].all gapTupleComplete = true ∧
    SendApp.createArcticDummyData.dark_ships.all
        (fun s => presentInRange s.lat (-90) 90) = true ∧
    SendApp.createArcticDummyData.dark_ships.all
        (fun s => presentInRange s.lon (-180) 180) = true ∧
    SendApp.createArcticDummyData.dark_ships.all
        (fun s => presentInRange s.confidence 0 1) = true ∧
    SendApp.createArcticDummyData.dark_ships.all
        (fun s => gapTupleComplete s || gapTupleAbsent s) = true ∧
    SendApp.createArcticDummyData.dark_ships.all gapTimesOrdered = true ∧
    SendApp.createArcticDummyData.dark_ships.all distanceNonneg = true ∧
    SendApp.createArcticDummyData.dark_ships.all specValidRecord = true := by
  refine ⟨rfl, by decide!, rfl, by decide, by decide!, by decide, by decide!, by decide!,
    by decide!, by decide, by decide!, by decide!, by decide!⟩

/-! ## The two maps agree on the gap overlay -/

/-- C26: for every record the guard of the gap visualization in DarkShipMap
and the guard in ShipCard have the same truth value, and the two maps draw the
same overlay geometry: when drawn, the markers sit at (last_lat, last_lon) and
(next_lat, next_lon) and the dashed line joins these two points. -/
theorem gap_overlay_same_on_both_maps (ship : Ship) :
    DarkShipMap.gapGuard ship = ShipCard.gapGuard ship ∧
    DarkShipMap.gapVisualization ship = ShipCard.gapVisualization ship ∧
    (∀ o : GapOverlay, DarkShipMap.gapVisualization ship = some o →
      o.gapStartMarker = (ship.last_lat, ship.last_lon) ∧
      o.gapEndMarker = (ship.next_lat, ship.next_lon) ∧
      o.polyline = [(ship.last_lat, ship.last_lon), (ship.next_lat, ship.next_lon)]) ∧
    (∀ o : GapOverlay, ShipCard.gapVisualization ship = some o →
      o.gapStartMarker = (ship.last_lat, ship.last_lon) ∧
      o.gapEndMarker = (ship.next_lat, ship.next_lon) ∧
      o.polyline = [(ship.last_lat, ship.last_lon), (ship.next_lat, ship.next_lon)]) := by
  have hguard : DarkShipMap.gapGuard ship = ShipCard.gapGuard ship := by
    rw [Bool.eq_iff_iff, DarkShipMap.gapGuard_eq_true_iff, ShipCard.gapGuard_true_iff_members]
  refine ⟨hguard, ?_, ?_, ?_⟩
  · simp only [DarkShipMap.gapVisualization, ShipCard.gapVisualization, hguard]
  · intro o h
    simp only [DarkShipMap.gapVisualization] at h
    split at h
    · cases h
      exact ⟨rfl, rfl, rfl⟩
    · cases h
  · intro o h
    simp only [ShipCard.gapVisualization] at h
    split at h
    · cases h
      exact ⟨rfl, rfl, rfl⟩
    · cases h

/-! ## Gap duration text -/

theorem gapDurationText_of_absent (ship : Ship)
    (h : ship.gap_start_time.isPresent = false ∨ ship.gap_end_time.isPresent = false) :
    gapDurationText ship = "N/A" := by
  simp [gapDurationText, hasGapTimes_false_of_absent ship h]

/-- C27: for a record whose two gap timestamps are present and parse to the
time values `a ≤ b` (milliseconds), let `H` be the gap length
`(b - a) / 3600000` in hours rounded by `Math.round` (within 1/2 of it). The
Gap Duration text of the vessel card is then `d` "d " `h` "h" with
`d = H div 24 ≥ 1` and `h = H mod 24` when `H ≥ 24`, and `H` "h" when
`H < 24`; here `24 * d + h = H` and `0 ≤ h < 24`. When either timestamp is
absent the text is "N/A". The first built-in record shows "3d 0h". -/
theorem gapDurationText_days_hours (ship : Ship) (s e : String) (a b : ℚ) (H : ℤ)
    (hs : ship.gap_start_time = .val s) (he : ship.gap_end_time = .val e)
    (ha : dateParse s = .fin a) (hb : dateParse e = .fin b) (hab : a ≤ b)
    (hH : H = roundHalfUp ((b - a) / 3600000)) :
    0 ≤ H ∧
    |(H : ℚ) - (b - a) / 3600000| ≤ 1 / 2 ∧
    (24 ≤ H →
      gapDurationText ship = toString (H / 24) ++ "d " ++ toString (H % 24) ++ "h" ∧
        1 ≤ H / 24) ∧
    (H < 24 → gapDurationText ship = toString H ++ "h") ∧
    24 * (H / 24) + H % 24 = H ∧ 0 ≤ H % 24 ∧ H % 24 < 24 ∧
    (∀ other : Ship,
      other.gap_start_time.isPresent = false ∨ other.gap_end_time.isPresent = false →
      gapDurationText other = "N/A") ∧
    gapDurationText SendApp.arcticShadow = "3d 0h" := by
  have hg : hasGapTimes ship = true := by
    simp [hasGapTimes, hs, he, Field.toBoolean_val_of_parsed s a ha,
      Field.toBoolean_val_of_parsed e b hb]
  have hh : gapHours ship = .fin ((b - a) / 3600000) :=
    gapHours_of_times ship a b (by simp [hs, newDate, ha]) (by simp [he, newDate, hb])
  have hq : (0 : ℚ) ≤ (b - a) / 3600000 := by
    apply div_nonneg <;> linarith
  have h0 : 0 ≤ H := by rw [hH]; exact roundHalfUp_nonneg _ hq
  have htext : gapDurationText ship =
      if 0 < H / 24 then toString (H / 24) ++ "d " ++ toString (H.tmod 24) ++ "h"
      else toString (H.tmod 24) ++ "h" := by
    simp only [gapDurationText, hg, hh, if_true, ← hH]
  have hmod : H.tmod 24 = H % 24 := Int.tmod_eq_emod h0 (by decide)
  refine ⟨h0, by rw [hH]; exact roundHalfUp_nearest _, ?_, ?_, by omega, by omega, by omega,
    gapDurationText_of_absent, by decide!⟩
  · intro h24
    have hd : 0 < H / 24 := by omega
    refine ⟨?_, by omega⟩
    rw [htext, if_pos hd, hmod]
  · intro h24
    have hd : ¬ 0 < H / 24 := by omega
    have hm : H % 24 = H := by omega
    rw [htext, if_neg hd, hmod, hm]

/-- Witness of `gapDurationText_days_hours` at the first built-in record,
whose gap of 72.3125 hours rounds to 72. -/
theorem gapDurationText_days_hours_witness :
    dateParse "2025-09-18T14:35:02Z" = .fin 1758206102000 ∧
    dateParse "2025-09-21T14:53:47Z" = .fin 1758466427000 ∧
    (72 : ℤ) = roundHalfUp ((1758466427000 - 1758206102000) / 3600000) ∧
    gapDurationText SendApp.arcticShadow =
      toString ((72 : ℤ) / 24) ++ "d " ++ toString ((72 : ℤ) % 24) ++ "h" :=
  ⟨by decide, by decide, by decide!,
    ((gapDurationText_days_hours SendApp.arcticShadow "2025-09-18T14:35:02Z"
      "2025-09-21T14:53:47Z" 1758206102000 1758466427000 72 rfl rfl (by decide) (by decide)
      (by norm_num) (by decide!)).2.2.1 (by decide)).1⟩

end PolarWatch
